import Mathlib

/-!
A verification development for the Farely backend identity service.

The TypeScript sources embedded here:
  - src/models/UserModel.ts        (user schema, pre-save hooks, OTP generation)
  - src/controllers/UserController.ts (registration / OTP / profile / login handlers)
  - src/middleware/authMiddleware.ts  (fixed-window rate limiter, createRateLimit)

Modelling conventions:
  - Dates are milliseconds since the epoch, as Nat.
  - The document store is a list of user documents; the Mongo `_id` is the
    `uid` field; insertion appends at the end with `uid = db.length`.
  - `Math.random`-based OTP generation takes an explicit entropy argument
    `r : Nat`; the generated code is `toString (100000 + r % 900000)`,
    exactly the range of `Math.floor(100000 + Math.random() * 900000)`.
  - bcrypt is abstracted as a pair of parameters `bhash : String → String`
    (bcrypt.hash with cost 12) and `bcompare : String → String → Bool`
    (bcrypt.compare), linked only by the hypothesis
    `∀ s, bcompare s (bhash s) = true` where the claims need it.
  - Mongoose runs schema setters (lowercase/trim for email, trim for phone)
    both on assignment and on `findOne` query filters; `normEmail` and
    `normPhone` model those setters.
  - `document.save()` runs the two pre-save hooks of UserModel.ts; their
    `isModified(path)` tests are passed in as booleans computed at each call
    site from what the handler actually assigned.
-/

namespace Farely

/-- A JSON-like value as it appears in a request body. -/
inductive JVal
  | str (s : String)
  | jbool (b : Bool)
  | num (n : Nat)
  deriving DecidableEq

/-- The user document of src/models/UserModel.ts.  Optional schema paths are
`Option`; `uid` stands for the Mongo `_id`. -/
structure UserDoc where
  uid : Nat := 0
  email : Option String := none
  phoneNumber : Option String := none
  password : String := ""
  firstName : Option String := none
  lastName : Option String := none
  middleInitial : Option String := none
  suffix : Option String := none
  birthday : Option Nat := none
  gender : Option String := none
  address : Option String := none
  referralCode : Option String := none
  isVerified : Bool := false
  isPhoneVerified : Bool := false
  isEmailVerified : Bool := false
  otpCode : Option String := none
  otpExpires : Option Nat := none
  profilePicture : Option String := none
  role : String := "user"
  termsAccepted : Bool := false
  termsAcceptedAt : Option Nat := none
  deriving DecidableEq

/-- JS `\w`: ASCII letters, digits and underscore. -/
def isWordChar (c : Char) : Bool :=
  (('a' ≤ c && c ≤ 'z') || ('A' ≤ c && c ≤ 'Z') || ('0' ≤ c && c ≤ '9') || c == '_')

/-- Continuation of the regex fragment `\w*([.-]?\w+)*` (what may follow the
first word character of a name part): word characters possibly separated by
single dots or hyphens, never ending in a separator. -/
def nameTail : List Char → Bool
  | [] => true
  | [c] => isWordChar c
  | c :: d :: ds =>
    if isWordChar c then nameTail (d :: ds)
    else if c == '.' || c == '-' then isWordChar d && nameTail ds
    else false

/-- The regex fragment `\w+([.-]?\w+)*` (local part of an email, and the
leading part of the domain). -/
def namePartOk : List Char → Bool
  | [] => false
  | c :: cs => isWordChar c && nameTail cs

/-- The regex fragment `(\.\w\x7b2,3\x7d)+`: one or more groups of a dot followed
by two or three word characters (matched with the regex's full backtracking
semantics, i.e. as an existential over decompositions). -/
def tldOk : List Char → Bool
  | ['.', a, b] => isWordChar a && isWordChar b
  | '.' :: a :: b :: c :: rest2 =>
    isWordChar a && isWordChar b &&
      (tldOk (c :: rest2) || (isWordChar c && (rest2.isEmpty || tldOk rest2)))
  | _ => false

/-- The part of the email regex after the `@`: `\w+([.-]?\w+)*(\.\w\x7b2,3\x7d)+`,
decided as an existential over the split between the name part and the
trailing TLD groups. -/
def domainOk (l : List Char) : Bool :=
  (List.range (l.length + 1)).any (fun i => namePartOk (l.take i) && tldOk (l.drop i))

/-- The helper `isEmail` of UserController.ts:
tests `^\w+([.-]?\w+)*@\w+([.-]?\w+)*(\.\w\x7b2,3\x7d)+$` against the input.
Since `@` cannot occur inside any other regex fragment, acceptance is an
existential over the position of the matched `@`. -/
def isEmail (s : String) : Bool :=
  let l := s.toList
  (List.range l.length).any (fun i =>
    l.getD i ' ' == '@' && namePartOk (l.take i) && domainOk (l.drop (i + 1)))

/-- ASCII lower-casing of one character (the effect of JS `toLowerCase` on
the ASCII range handled by the email regex). -/
def lowerChar (c : Char) : Char :=
  if 'A' ≤ c && c ≤ 'Z' then Char.ofNat (c.toNat + 32) else c

/-- Whitespace as trimmed by JS `trim`. -/
def isSpaceChar (c : Char) : Bool := c == ' ' || (9 ≤ c.toNat && c.toNat ≤ 13)

/-- JS `trim`: drop whitespace from both ends. -/
def trimStr (s : String) : String :=
  String.mk (((s.toList.dropWhile isSpaceChar).reverse.dropWhile isSpaceChar).reverse)

/-- The mongoose setters on the `email` path: `lowercase: true, trim: true`. -/
def normEmail (s : String) : String := String.mk ((trimStr s).toList.map lowerChar)

/-- The mongoose setter on the `phoneNumber` path: `trim: true`. -/
def normPhone (s : String) : String := trimStr s

/-- The `findOne` filter used by every identifier-keyed handler: by `email`
when `isEmail` classifies the input as an email, by `phoneNumber` otherwise
(schema setters applied to the filter value). -/
def matchesIdentifier (emailOrPhone : String) (u : UserDoc) : Bool :=
  if isEmail emailOrPhone then u.email == some (normEmail emailOrPhone)
  else u.phoneNumber == some (normPhone emailOrPhone)

/-- The code produced by `generateOTP` for entropy `r`:
`Math.floor(100000 + Math.random() * 900000).toString()`. -/
def genOTPCode (r : Nat) : String := toString (100000 + r % 900000)

/-- OTP lifetime: 10 minutes, in milliseconds. -/
def otpWindowMs : Nat := 10 * 60 * 1000

/-- First pre-save hook of UserModel.ts: hash the password with bcrypt
(cost 12) when and only when the `password` path is modified. -/
def hashHook (bhash : String → String) (pwModified : Bool) (u : UserDoc) : UserDoc :=
  if pwModified then { u with password := bhash u.password } else u

/-- Second pre-save hook of UserModel.ts: set `termsAcceptedAt` when the
`termsAccepted` path is modified, is true, and `termsAcceptedAt` is unset. -/
def termsHook (now : Nat) (termsModified : Bool) (u : UserDoc) : UserDoc :=
  if termsModified && u.termsAccepted && u.termsAcceptedAt == none then
    { u with termsAcceptedAt := some now }
  else u

/-- `document.save()`: run both pre-save hooks in registration order. -/
def saveDoc (bhash : String → String) (now : Nat) (pwModified termsModified : Bool)
    (u : UserDoc) : UserDoc :=
  termsHook now termsModified (hashHook bhash pwModified u)

/-- The document store. -/
abbrev DB := List UserDoc

/-- Replace the first element satisfying `p` by `v` (a fetched document that
was mutated and saved goes back to its own slot). -/
def updateFirst (p : UserDoc → Bool) (v : UserDoc) : DB → DB
  | [] => []
  | u :: us => if p u then v :: us else u :: updateFirst p v us

/-- Result of `verifyOTP` (UserController.ts, step 2). -/
inductive VerifyResult
  | notFound
  | invalidCode
  | expired
  | verified (userId : Nat)
  deriving DecidableEq

/-- HTTP status of each `verifyOTP` outcome. -/
def VerifyResult.statusCode : VerifyResult → Nat
  | .notFound => 404
  | .invalidCode => 400
  | .expired => 400
  | .verified _ => 200

/-- `verifyOTP` of UserController.ts: look the user up by the classified
identifier (with the OTP fields selected), reject when the stored code is
falsy or differs from the supplied code, reject when the stored expiry is
falsy or strictly before now, otherwise set the verified flag of the
classified channel, clear both OTP fields, and save. -/
def verifyOTP (bhash : String → String) (db : DB) (now : Nat)
    (emailOrPhone otpCode : String) : VerifyResult × DB :=
  match db.find? (matchesIdentifier emailOrPhone) with
  | none => (.notFound, db)
  | some user =>
    if user.otpCode == none || user.otpCode == some "" || !(user.otpCode == some otpCode) then
      (.invalidCode, db)
    else if (match user.otpExpires with | none => true | some e => decide (e < now)) then
      (.expired, db)
    else
      let user1 : UserDoc :=
        { user with
          isEmailVerified := if isEmail emailOrPhone then true else user.isEmailVerified
          isPhoneVerified := if isEmail emailOrPhone then user.isPhoneVerified else true
          otpCode := none
          otpExpires := none }
      let user2 := saveDoc bhash now false false user1
      (.verified user.uid, updateFirst (matchesIdentifier emailOrPhone) user2 db)

/-- Input of `registerUser` (step 1). -/
structure RegisterInput where
  emailOrPhone : String
  password : String
  confirmPassword : String
  referralCode : Option String := none
  deriving DecidableEq

/-- Result of `registerUser`.  `mismatch` is the 400 "Passwords do not match"
response; `conflict` is the 400 "User with this email/phone number already
exists" response raised inside the transaction; `created` is the 201. -/
inductive RegisterResult
  | mismatch
  | conflict (which : String)
  | created (userId : Nat) (contactMethod : String)
  deriving DecidableEq

/-- `registerUser` of UserController.ts: reject on password mismatch, then in
one transaction look the classified identifier up, abort with the conflict
error when found, otherwise create a `Pending` user, generate an OTP, and
save (the transaction commits the insert). -/
def registerUser (bhash : String → String) (db : DB) (now r : Nat)
    (inp : RegisterInput) : RegisterResult × DB :=
  if !(inp.password == inp.confirmPassword) then (.mismatch, db)
  else
    let isEmailInput := isEmail inp.emailOrPhone
    match db.find? (matchesIdentifier inp.emailOrPhone) with
    | some _ => (.conflict (if isEmailInput then "email" else "phone number"), db)
    | none =>
      let newUser : UserDoc :=
        { uid := db.length
          email := if isEmailInput then some (normEmail inp.emailOrPhone) else none
          phoneNumber := if isEmailInput then none else some (normPhone inp.emailOrPhone)
          password := inp.password
          referralCode := inp.referralCode
          termsAccepted := false
          otpCode := some (genOTPCode r)
          otpExpires := some (now + otpWindowMs) }
      let savedUser := saveDoc bhash now true true newUser
      (.created savedUser.uid (if isEmailInput then "email" else "phone"), db ++ [savedUser])

/-- Result of `resendOTP`. -/
inductive ResendResult
  | notFound
  | sent
  deriving DecidableEq

/-- `resendOTP` of UserController.ts: look the user up by the classified
identifier, regenerate the OTP code and expiry, and save. -/
def resendOTP (bhash : String → String) (db : DB) (now r : Nat)
    (emailOrPhone : String) : ResendResult × DB :=
  match db.find? (matchesIdentifier emailOrPhone) with
  | none => (.notFound, db)
  | some user =>
    let user1 : UserDoc :=
      { user with otpCode := some (genOTPCode r), otpExpires := some (now + otpWindowMs) }
    let user2 := saveDoc bhash now false false user1
    (.sent, updateFirst (matchesIdentifier emailOrPhone) user2 db)

/-- The `toObject()` serialization of a user document: an association list
with one entry per present schema path (optional paths that are unset do not
appear in the plain object). -/
def toObject (u : UserDoc) : List (String × JVal) :=
  [("_id", JVal.num u.uid)]
  ++ (match u.email with | some v => [("email", JVal.str v)] | none => [])
  ++ (match u.phoneNumber with | some v => [("phoneNumber", JVal.str v)] | none => [])
  ++ [("password", JVal.str u.password)]
  ++ (match u.firstName with | some v => [("firstName", JVal.str v)] | none => [])
  ++ (match u.lastName with | some v => [("lastName", JVal.str v)] | none => [])
  ++ (match u.middleInitial with | some v => [("middleInitial", JVal.str v)] | none => [])
  ++ (match u.suffix with | some v => [("suffix", JVal.str v)] | none => [])
  ++ (match u.birthday with | some v => [("birthday", JVal.num v)] | none => [])
  ++ (match u.gender with | some v => [("gender", JVal.str v)] | none => [])
  ++ (match u.address with | some v => [("address", JVal.str v)] | none => [])
  ++ (match u.referralCode with | some v => [("referralCode", JVal.str v)] | none => [])
  ++ [("isVerified", JVal.jbool u.isVerified),
      ("isPhoneVerified", JVal.jbool u.isPhoneVerified),
      ("isEmailVerified", JVal.jbool u.isEmailVerified)]
  ++ (match u.otpCode with | some v => [("otpCode", JVal.str v)] | none => [])
  ++ (match u.otpExpires with | some v => [("otpExpires", JVal.num v)] | none => [])
  ++ (match u.profilePicture with | some v => [("profilePicture", JVal.str v)] | none => [])
  ++ [("role", JVal.str u.role), ("termsAccepted", JVal.jbool u.termsAccepted)]
  ++ (match u.termsAcceptedAt with | some v => [("termsAcceptedAt", JVal.num v)] | none => [])

/-- JS `delete obj[k]`: drop the property named `k`. -/
def deleteKey (k : String) (o : List (String × JVal)) : List (String × JVal) :=
  o.filter (fun kv => !(kv.1 == k))

/-- The response sanitization of `completeProfile` and `loginUser`:
`delete userResponse.password; delete userResponse.otpCode;
delete userResponse.otpExpires`. -/
def sanitizeUser (o : List (String × JVal)) : List (String × JVal) :=
  deleteKey "otpExpires" (deleteKey "otpCode" (deleteKey "password" o))

/-- Input of `completeProfile` (step 3). -/
structure PersonalInfo where
  userId : Nat
  firstName : String
  lastName : String
  middleInitial : Option String := none
  suffix : Option String := none
  birthday : Nat
  gender : String
  address : String
  termsAccepted : Bool
  deriving DecidableEq

/-- Result of `completeProfile`.  `termsRequired` is the 400 "Terms and
conditions must be accepted"; `notVerifiedYet` is the 400 "Please verify
your email or phone number first"; `completed` carries the sanitized user
object and the issued token (modelled by the subject id it signs). -/
inductive CompleteResult
  | termsRequired
  | notFound
  | notVerifiedYet
  | completed (user : List (String × JVal)) (token : Nat)
  deriving DecidableEq

/-- `completeProfile` of UserController.ts: reject when terms are not
accepted, look the user up by id, reject when neither channel is verified,
otherwise overwrite the profile fields, set `termsAccepted` and
`isVerified`, save, and answer with a token and the sanitized user. -/
def completeProfile (bhash : String → String) (db : DB) (now : Nat)
    (inp : PersonalInfo) : CompleteResult × DB :=
  if !inp.termsAccepted then (.termsRequired, db)
  else
    match db.find? (fun u => u.uid == inp.userId) with
    | none => (.notFound, db)
    | some user =>
      if !user.isEmailVerified && !user.isPhoneVerified then (.notVerifiedYet, db)
      else
        let user1 : UserDoc :=
          { user with
            firstName := some inp.firstName
            lastName := some inp.lastName
            middleInitial := inp.middleInitial
            suffix := inp.suffix
            birthday := some inp.birthday
            gender := some inp.gender
            address := some inp.address
            termsAccepted := inp.termsAccepted
            isVerified := true }
        let termsModified := !(user1.termsAccepted == user.termsAccepted)
        let user2 := saveDoc bhash now false termsModified user1
        (.completed (sanitizeUser (toObject user2)) user.uid,
          updateFirst (fun u => u.uid == inp.userId) user2 db)

/-- Result of `loginUser`. -/
inductive LoginResult
  | invalidCredentials
  | notConfirmed
  | loggedIn (user : List (String × JVal)) (token : Nat)
  deriving DecidableEq

/-- HTTP status of each `loginUser` outcome. -/
def LoginResult.statusCode : LoginResult → Nat
  | .invalidCredentials => 401
  | .notConfirmed => 401
  | .loggedIn _ _ => 200

/-- Response message of each `loginUser` outcome. -/
def LoginResult.responseMessage : LoginResult → String
  | .invalidCredentials => "Invalid credentials"
  | .notConfirmed => "Please complete your registration first"
  | .loggedIn _ _ => "Login successful"

/-- `loginUser` of UserController.ts: look the user up by the classified
identifier with the password selected; unknown identifier answers 401
"Invalid credentials"; an unverified user answers 401 "Please complete your
registration first"; a failed bcrypt comparison answers 401 "Invalid
credentials"; otherwise issue a token and answer with the sanitized user. -/
def loginUser (bcompare : String → String → Bool) (db : DB)
    (emailOrPhone password : String) : LoginResult :=
  match db.find? (matchesIdentifier emailOrPhone) with
  | none => .invalidCredentials
  | some user =>
    if !user.isVerified then .notConfirmed
    else if !(bcompare password user.password) then .invalidCredentials
    else .loggedIn (sanitizeUser (toObject user)) user.uid

/-- The fields `updateUserProfile` strips from the request body before
persisting: `delete updateData.password; delete updateData._id;
delete updateData.role; delete updateData.isVerified`. -/
def strippedFields : List String := ["password", "_id", "role", "isVerified"]

/-- The mongoose cast-and-set of one update value on the `email` path. -/
def setEmailField (u : UserDoc) (v : JVal) : UserDoc :=
  match v with | .str s => { u with email := some (normEmail s) } | _ => u

/-- The mongoose cast-and-set of one update value on the `phoneNumber` path. -/
def setPhoneNumberField (u : UserDoc) (v : JVal) : UserDoc :=
  match v with | .str s => { u with phoneNumber := some (normPhone s) } | _ => u

/-- The mongoose cast-and-set of one update value on the `password` path. -/
def setPasswordField (u : UserDoc) (v : JVal) : UserDoc :=
  match v with | .str s => { u with password := s } | _ => u

/-- The mongoose cast-and-set of one update value on the `firstName` path. -/
def setFirstNameField (u : UserDoc) (v : JVal) : UserDoc :=
  match v with | .str s => { u with firstName := some s } | _ => u

/-- The mongoose cast-and-set of one update value on the `lastName` path. -/
def setLastNameField (u : UserDoc) (v : JVal) : UserDoc :=
  match v with | .str s => { u with lastName := some s } | _ => u

/-- The mongoose cast-and-set of one update value on the `middleInitial` path. -/
def setMiddleInitialField (u : UserDoc) (v : JVal) : UserDoc :=
  match v with | .str s => { u with middleInitial := some s } | _ => u

/-- The mongoose cast-and-set of one update value on the `suffix` path. -/
def setSuffixField (u : UserDoc) (v : JVal) : UserDoc :=
  match v with | .str s => { u with suffix := some s } | _ => u

/-- The mongoose cast-and-set of one update value on the `birthday` path. -/
def setBirthdayField (u : UserDoc) (v : JVal) : UserDoc :=
  match v with | .num n => { u with birthday := some n } | _ => u

/-- The mongoose cast-and-set of one update value on the `gender` path. -/
def setGenderField (u : UserDoc) (v : JVal) : UserDoc :=
  match v with | .str s => { u with gender := some s } | _ => u

/-- The mongoose cast-and-set of one update value on the `address` path. -/
def setAddressField (u : UserDoc) (v : JVal) : UserDoc :=
  match v with | .str s => { u with address := some s } | _ => u

/-- The mongoose cast-and-set of one update value on the `referralCode` path. -/
def setReferralCodeField (u : UserDoc) (v : JVal) : UserDoc :=
  match v with | .str s => { u with referralCode := some s } | _ => u

/-- The mongoose cast-and-set of one update value on the `isVerified` path. -/
def setIsVerifiedField (u : UserDoc) (v : JVal) : UserDoc :=
  match v with | .jbool b => { u with isVerified := b } | _ => u

/-- The mongoose cast-and-set of one update value on the `isPhoneVerified` path. -/
def setIsPhoneVerifiedField (u : UserDoc) (v : JVal) : UserDoc :=
  match v with | .jbool b => { u with isPhoneVerified := b } | _ => u

/-- The mongoose cast-and-set of one update value on the `isEmailVerified` path. -/
def setIsEmailVerifiedField (u : UserDoc) (v : JVal) : UserDoc :=
  match v with | .jbool b => { u with isEmailVerified := b } | _ => u

/-- The mongoose cast-and-set of one update value on the `otpCode` path. -/
def setOtpCodeField (u : UserDoc) (v : JVal) : UserDoc :=
  match v with | .str s => { u with otpCode := some s } | _ => u

/-- The mongoose cast-and-set of one update value on the `otpExpires` path. -/
def setOtpExpiresField (u : UserDoc) (v : JVal) : UserDoc :=
  match v with | .num n => { u with otpExpires := some n } | _ => u

/-- The mongoose cast-and-set of one update value on the `profilePicture` path. -/
def setProfilePictureField (u : UserDoc) (v : JVal) : UserDoc :=
  match v with | .str s => { u with profilePicture := some s } | _ => u

/-- The mongoose cast-and-set of one update value on the `role` path. -/
def setRoleField (u : UserDoc) (v : JVal) : UserDoc :=
  match v with | .str s => { u with role := s } | _ => u

/-- The mongoose cast-and-set of one update value on the `termsAccepted` path. -/
def setTermsAcceptedField (u : UserDoc) (v : JVal) : UserDoc :=
  match v with | .jbool b => { u with termsAccepted := b } | _ => u

/-- The mongoose cast-and-set of one update value on the `termsAcceptedAt` path. -/
def setTermsAcceptedAtField (u : UserDoc) (v : JVal) : UserDoc :=
  match v with | .num n => { u with termsAcceptedAt := some n } | _ => u

/-- Apply one `$set` entry of a `findByIdAndUpdate` body to a document.
Unknown paths are dropped (mongoose strict mode); a value whose JSON kind
does not fit the schema path is ignored here (the claims never exercise
mongoose casting). -/
def applyField (u : UserDoc) (k : String) (v : JVal) : UserDoc :=
  if k == "email" then setEmailField u v
  else if k == "phoneNumber" then setPhoneNumberField u v
  else if k == "password" then setPasswordField u v
  else if k == "firstName" then setFirstNameField u v
  else if k == "lastName" then setLastNameField u v
  else if k == "middleInitial" then setMiddleInitialField u v
  else if k == "suffix" then setSuffixField u v
  else if k == "birthday" then setBirthdayField u v
  else if k == "gender" then setGenderField u v
  else if k == "address" then setAddressField u v
  else if k == "referralCode" then setReferralCodeField u v
  else if k == "isVerified" then setIsVerifiedField u v
  else if k == "isPhoneVerified" then setIsPhoneVerifiedField u v
  else if k == "isEmailVerified" then setIsEmailVerifiedField u v
  else if k == "otpCode" then setOtpCodeField u v
  else if k == "otpExpires" then setOtpExpiresField u v
  else if k == "profilePicture" then setProfilePictureField u v
  else if k == "role" then setRoleField u v
  else if k == "termsAccepted" then setTermsAcceptedField u v
  else if k == "termsAcceptedAt" then setTermsAcceptedAtField u v
  else u

/-- Apply a whole update body in order. -/
def applyFields (u : UserDoc) : List (String × JVal) → UserDoc
  | [] => u
  | kv :: rest => applyFields (applyField u kv.1 kv.2) rest

/-- Result of `updateUserProfile` (PUT /profile). -/
inductive UpdateResult
  | notAuthenticated
  | notFound
  | updated (user : UserDoc)
  deriving DecidableEq

/-- `updateUserProfile` of UserController.ts: require an authenticated user
id, delete `password`, `_id`, `role` and `isVerified` from the body, and
apply the rest with `findByIdAndUpdate` (no save hooks run). -/
def updateUserProfile (db : DB) (authUid : Option Nat)
    (body : List (String × JVal)) : UpdateResult × DB :=
  match authUid with
  | none => (.notAuthenticated, db)
  | some uid =>
    let body1 := body.filter (fun kv => !(strippedFields.contains kv.1))
    match db.find? (fun u => u.uid == uid) with
    | none => (.notFound, db)
    | some user =>
      let user1 := applyFields user body1
      (.updated user1, updateFirst (fun u => u.uid == uid) user1 db)

/-- One fixed-window rate-limit entry of rateLimitMiddleware:
`count` requests seen in the window that ends at `resetTime`. -/
structure RLEntry where
  count : Nat
  resetTime : Nat
  deriving DecidableEq

/-- The in-memory store of the rate limiter, keyed by the derived key. -/
abbrev RLStore := List (String × RLEntry)

/-- Configuration of `createRateLimit`. -/
structure RLOptions where
  windowMs : Nat
  maxReq : Nat
  deriving DecidableEq

/-- Read a key of the store. -/
def storeGet (s : RLStore) (k : String) : Option RLEntry :=
  (s.find? (fun kv => kv.1 == k)).map (fun kv => kv.2)

/-- Write a key of the store. -/
def storeSet (s : RLStore) (k : String) (e : RLEntry) : RLStore :=
  if (s.find? (fun kv => kv.1 == k)).isSome then
    s.map (fun kv => if kv.1 == k then (k, e) else kv)
  else s ++ [(k, e)]

/-- Decision of one gated call: pass through, or answer 429 with the
`retryAfter` seconds of the response body. -/
inductive RLDecision
  | allow
  | reject (retryAfter : Nat)
  deriving DecidableEq

/-- One gated call through the middleware returned by `createRateLimit`:
reset the entry to count 1 when it is absent or its window has elapsed
(`resetTime < now`), otherwise increment; then reject with
`Math.ceil((resetTime - now) / 1000)` when the count exceeds the maximum. -/
def rlStep (opts : RLOptions) (s : RLStore) (key : String) (now : Nat) :
    RLDecision × RLStore :=
  let entry :=
    match storeGet s key with
    | none => { count := 1, resetTime := now + opts.windowMs : RLEntry }
    | some e =>
      if e.resetTime < now then { count := 1, resetTime := now + opts.windowMs : RLEntry }
      else { e with count := e.count + 1 }
  (if opts.maxReq < entry.count then .reject ((entry.resetTime - now + 999) / 1000)
   else .allow,
   storeSet s key entry)

/-- A sequence of gated calls for one key at the given times. -/
def rlRun (opts : RLOptions) (key : String) (s : RLStore) :
    List Nat → List RLDecision × RLStore
  | [] => ([], s)
  | t :: ts =>
    let st := rlStep opts s key t
    let rest := rlRun opts key st.2 ts
    (st.1 :: rest.1, rest.2)

/-- One persisted state-machine step on an existing identity (the three
operations that fetch a document and `save()` it). -/
inductive UserOp
  | verify (now : Nat) (emailOrPhone otpCode : String)
  | resend (now r : Nat) (emailOrPhone : String)
  | complete (now : Nat) (inp : PersonalInfo)

/-- The store after one operation. -/
def applyOp (bhash : String → String) (db : DB) : UserOp → DB
  | .verify now emailOrPhone otpCode => (verifyOTP bhash db now emailOrPhone otpCode).2
  | .resend now r emailOrPhone => (resendOTP bhash db now r emailOrPhone).2
  | .complete now inp => (completeProfile bhash db now inp).2

/-- The store after a sequence of operations. -/
def applyOps (bhash : String → String) (db : DB) : List UserOp → DB
  | [] => db
  | op :: ops => applyOps bhash (applyOp bhash db op) ops

/-- The fields that identify a document to `findOne` together with the
stored credential hash. -/
def keyFields (u : UserDoc) : Option String × Option String × String :=
  (u.email, u.phoneNumber, u.password)

theorem hashHook_false (bhash : String → String) (u : UserDoc) :
    hashHook bhash false u = u := rfl

theorem termsHook_cases (now : Nat) (tm : Bool) (u : UserDoc) :
    termsHook now tm u = u ∨ termsHook now tm u = { u with termsAcceptedAt := some now } := by
  unfold termsHook
  split
  · right; rfl
  · left; rfl

theorem saveDoc_not_modified (bhash : String → String) (now : Nat) (u : UserDoc) :
    saveDoc bhash now false false u = u := by
  simp [saveDoc, hashHook, termsHook]

theorem termsHook_keeps_set (now : Nat) (tm : Bool) (u : UserDoc) (t : Nat)
    (h : u.termsAcceptedAt = some t) : (termsHook now tm u).termsAcceptedAt = some t := by
  unfold termsHook
  split
  · next hcond =>
    simp only [Bool.and_eq_true, beq_iff_eq] at hcond
    rw [h] at hcond
    exact absurd hcond.2 (by simp)
  · exact h

theorem find?_updateFirst (p : UserDoc → Bool) (v : UserDoc) (db : DB)
    (hdb : (db.find? p).isSome) (hv : p v = true) :
    (updateFirst p v db).find? p = some v := by
  induction db with
  | nil => simp [List.find?] at hdb
  | cons x xs ih =>
    by_cases hx : p x
    · simp [updateFirst, hx, List.find?_cons_of_pos, hv]
    · rw [List.find?_cons_of_neg _ hx] at hdb
      simp only [updateFirst, hx, if_false, Bool.false_eq_true, if_neg,
        not_false_eq_true]
      rw [List.find?_cons_of_neg _ hx]
      exact ih hdb

theorem get?_updateFirst (p : UserDoc → Bool) (v : UserDoc) (db : DB) (i : Nat) :
    (updateFirst p v db).get? i = db.get? i ∨
    (∃ u, db.get? i = some u ∧ db.find? p = some u ∧ (updateFirst p v db).get? i = some v) := by
  induction db generalizing i with
  | nil => left; rfl
  | cons x xs ih =>
    by_cases hx : p x
    · cases i with
      | zero =>
        right
        exact ⟨x, rfl, by rw [List.find?_cons_of_pos _ hx], by simp [updateFirst, hx]⟩
      | succ j => left; simp [updateFirst, hx]
    · cases i with
      | zero => left; simp [updateFirst, hx]
      | succ j =>
        rcases ih j with h | ⟨u, h1, h2, h3⟩
        · left; simpa [updateFirst, hx] using h
        · right
          exact ⟨u, by simpa using h1, by rw [List.find?_cons_of_neg _ hx]; exact h2,
            by simpa [updateFirst, hx] using h3⟩

theorem map_updateFirst {α : Type} (f : UserDoc → α) (p : UserDoc → Bool) (v : UserDoc)
    (db : DB) (u : UserDoc) (hfind : db.find? p = some u) (hf : f v = f u) :
    (updateFirst p v db).map f = db.map f := by
  induction db with
  | nil => rfl
  | cons x xs ih =>
    by_cases hx : p x
    · rw [List.find?_cons_of_pos _ hx] at hfind
      cases hfind
      simp [updateFirst, hx, hf]
    · rw [List.find?_cons_of_neg _ hx] at hfind
      simp [updateFirst, hx, ih hfind]

theorem matchesIdentifier_congr (emailOrPhone : String) (u v : UserDoc)
    (h1 : u.email = v.email) (h2 : u.phoneNumber = v.phoneNumber) :
    matchesIdentifier emailOrPhone u = matchesIdentifier emailOrPhone v := by
  unfold matchesIdentifier
  rw [h1, h2]

theorem hashHook_email (bhash : String → String) (pm : Bool) (u : UserDoc) :
    (hashHook bhash pm u).email = u.email := by
  unfold hashHook
  split <;> rfl

theorem termsHook_email (now : Nat) (tm : Bool) (u : UserDoc) :
    (termsHook now tm u).email = u.email := by
  rcases termsHook_cases now tm u with h | h <;> rw [h]

theorem saveDoc_email (bhash : String → String) (now : Nat) (pm tm : Bool) (u : UserDoc) :
    (saveDoc bhash now pm tm u).email = u.email := by
  unfold saveDoc
  rw [termsHook_email, hashHook_email]

theorem hashHook_phoneNumber (bhash : String → String) (pm : Bool) (u : UserDoc) :
    (hashHook bhash pm u).phoneNumber = u.phoneNumber := by
  unfold hashHook
  split <;> rfl

theorem termsHook_phoneNumber (now : Nat) (tm : Bool) (u : UserDoc) :
    (termsHook now tm u).phoneNumber = u.phoneNumber := by
  rcases termsHook_cases now tm u with h | h <;> rw [h]

theorem saveDoc_phoneNumber (bhash : String → String) (now : Nat) (pm tm : Bool) (u : UserDoc) :
    (saveDoc bhash now pm tm u).phoneNumber = u.phoneNumber := by
  unfold saveDoc
  rw [termsHook_phoneNumber, hashHook_phoneNumber]

theorem hashHook_uid (bhash : String → String) (pm : Bool) (u : UserDoc) :
    (hashHook bhash pm u).uid = u.uid := by
  unfold hashHook
  split <;> rfl

theorem termsHook_uid (now : Nat) (tm : Bool) (u : UserDoc) :
    (termsHook now tm u).uid = u.uid := by
  rcases termsHook_cases now tm u with h | h <;> rw [h]

theorem saveDoc_uid (bhash : String → String) (now : Nat) (pm tm : Bool) (u : UserDoc) :
    (saveDoc bhash now pm tm u).uid = u.uid := by
  unfold saveDoc
  rw [termsHook_uid, hashHook_uid]

theorem hashHook_otpCode (bhash : String → String) (pm : Bool) (u : UserDoc) :
    (hashHook bhash pm u).otpCode = u.otpCode := by
  unfold hashHook
  split <;> rfl

theorem termsHook_otpCode (now : Nat) (tm : Bool) (u : UserDoc) :
    (termsHook now tm u).otpCode = u.otpCode := by
  rcases termsHook_cases now tm u with h | h <;> rw [h]

theorem saveDoc_otpCode (bhash : String → String) (now : Nat) (pm tm : Bool) (u : UserDoc) :
    (saveDoc bhash now pm tm u).otpCode = u.otpCode := by
  unfold saveDoc
  rw [termsHook_otpCode, hashHook_otpCode]

theorem hashHook_otpExpires (bhash : String → String) (pm : Bool) (u : UserDoc) :
    (hashHook bhash pm u).otpExpires = u.otpExpires := by
  unfold hashHook
  split <;> rfl

theorem termsHook_otpExpires (now : Nat) (tm : Bool) (u : UserDoc) :
    (termsHook now tm u).otpExpires = u.otpExpires := by
  rcases termsHook_cases now tm u with h | h <;> rw [h]

theorem saveDoc_otpExpires (bhash : String → String) (now : Nat) (pm tm : Bool) (u : UserDoc) :
    (saveDoc bhash now pm tm u).otpExpires = u.otpExpires := by
  unfold saveDoc
  rw [termsHook_otpExpires, hashHook_otpExpires]

theorem hashHook_isVerified (bhash : String → String) (pm : Bool) (u : UserDoc) :
    (hashHook bhash pm u).isVerified = u.isVerified := by
  unfold hashHook
  split <;> rfl

theorem termsHook_isVerified (now : Nat) (tm : Bool) (u : UserDoc) :
    (termsHook now tm u).isVerified = u.isVerified := by
  rcases termsHook_cases now tm u with h | h <;> rw [h]

theorem saveDoc_isVerified (bhash : String → String) (now : Nat) (pm tm : Bool) (u : UserDoc) :
    (saveDoc bhash now pm tm u).isVerified = u.isVerified := by
  unfold saveDoc
  rw [termsHook_isVerified, hashHook_isVerified]

theorem hashHook_isEmailVerified (bhash : String → String) (pm : Bool) (u : UserDoc) :
    (hashHook bhash pm u).isEmailVerified = u.isEmailVerified := by
  unfold hashHook
  split <;> rfl

theorem termsHook_isEmailVerified (now : Nat) (tm : Bool) (u : UserDoc) :
    (termsHook now tm u).isEmailVerified = u.isEmailVerified := by
  rcases termsHook_cases now tm u with h | h <;> rw [h]

theorem saveDoc_isEmailVerified (bhash : String → String) (now : Nat) (pm tm : Bool) (u : UserDoc) :
    (saveDoc bhash now pm tm u).isEmailVerified = u.isEmailVerified := by
  unfold saveDoc
  rw [termsHook_isEmailVerified, hashHook_isEmailVerified]

theorem hashHook_isPhoneVerified (bhash : String → String) (pm : Bool) (u : UserDoc) :
    (hashHook bhash pm u).isPhoneVerified = u.isPhoneVerified := by
  unfold hashHook
  split <;> rfl

theorem termsHook_isPhoneVerified (now : Nat) (tm : Bool) (u : UserDoc) :
    (termsHook now tm u).isPhoneVerified = u.isPhoneVerified := by
  rcases termsHook_cases now tm u with h | h <;> rw [h]

theorem saveDoc_isPhoneVerified (bhash : String → String) (now : Nat) (pm tm : Bool) (u : UserDoc) :
    (saveDoc bhash now pm tm u).isPhoneVerified = u.isPhoneVerified := by
  unfold saveDoc
  rw [termsHook_isPhoneVerified, hashHook_isPhoneVerified]

theorem hashHook_firstName (bhash : String → String) (pm : Bool) (u : UserDoc) :
    (hashHook bhash pm u).firstName = u.firstName := by
  unfold hashHook
  split <;> rfl

theorem termsHook_firstName (now : Nat) (tm : Bool) (u : UserDoc) :
    (termsHook now tm u).firstName = u.firstName := by
  rcases termsHook_cases now tm u with h | h <;> rw [h]

theorem saveDoc_firstName (bhash : String → String) (now : Nat) (pm tm : Bool) (u : UserDoc) :
    (saveDoc bhash now pm tm u).firstName = u.firstName := by
  unfold saveDoc
  rw [termsHook_firstName, hashHook_firstName]

theorem hashHook_lastName (bhash : String → String) (pm : Bool) (u : UserDoc) :
    (hashHook bhash pm u).lastName = u.lastName := by
  unfold hashHook
  split <;> rfl

theorem termsHook_lastName (now : Nat) (tm : Bool) (u : UserDoc) :
    (termsHook now tm u).lastName = u.lastName := by
  rcases termsHook_cases now tm u with h | h <;> rw [h]

theorem saveDoc_lastName (bhash : String → String) (now : Nat) (pm tm : Bool) (u : UserDoc) :
    (saveDoc bhash now pm tm u).lastName = u.lastName := by
  unfold saveDoc
  rw [termsHook_lastName, hashHook_lastName]

theorem hashHook_middleInitial (bhash : String → String) (pm : Bool) (u : UserDoc) :
    (hashHook bhash pm u).middleInitial = u.middleInitial := by
  unfold hashHook
  split <;> rfl

theorem termsHook_middleInitial (now : Nat) (tm : Bool) (u : UserDoc) :
    (termsHook now tm u).middleInitial = u.middleInitial := by
  rcases termsHook_cases now tm u with h | h <;> rw [h]

theorem saveDoc_middleInitial (bhash : String → String) (now : Nat) (pm tm : Bool) (u : UserDoc) :
    (saveDoc bhash now pm tm u).middleInitial = u.middleInitial := by
  unfold saveDoc
  rw [termsHook_middleInitial, hashHook_middleInitial]

theorem hashHook_birthday (bhash : String → String) (pm : Bool) (u : UserDoc) :
    (hashHook bhash pm u).birthday = u.birthday := by
  unfold hashHook
  split <;> rfl

theorem termsHook_birthday (now : Nat) (tm : Bool) (u : UserDoc) :
    (termsHook now tm u).birthday = u.birthday := by
  rcases termsHook_cases now tm u with h | h <;> rw [h]

theorem saveDoc_birthday (bhash : String → String) (now : Nat) (pm tm : Bool) (u : UserDoc) :
    (saveDoc bhash now pm tm u).birthday = u.birthday := by
  unfold saveDoc
  rw [termsHook_birthday, hashHook_birthday]

theorem hashHook_gender (bhash : String → String) (pm : Bool) (u : UserDoc) :
    (hashHook bhash pm u).gender = u.gender := by
  unfold hashHook
  split <;> rfl

theorem termsHook_gender (now : Nat) (tm : Bool) (u : UserDoc) :
    (termsHook now tm u).gender = u.gender := by
  rcases termsHook_cases now tm u with h | h <;> rw [h]

theorem saveDoc_gender (bhash : String → String) (now : Nat) (pm tm : Bool) (u : UserDoc) :
    (saveDoc bhash now pm tm u).gender = u.gender := by
  unfold saveDoc
  rw [termsHook_gender, hashHook_gender]

theorem hashHook_address (bhash : String → String) (pm : Bool) (u : UserDoc) :
    (hashHook bhash pm u).address = u.address := by
  unfold hashHook
  split <;> rfl

theorem termsHook_address (now : Nat) (tm : Bool) (u : UserDoc) :
    (termsHook now tm u).address = u.address := by
  rcases termsHook_cases now tm u with h | h <;> rw [h]

theorem saveDoc_address (bhash : String → String) (now : Nat) (pm tm : Bool) (u : UserDoc) :
    (saveDoc bhash now pm tm u).address = u.address := by
  unfold saveDoc
  rw [termsHook_address, hashHook_address]

theorem hashHook_role (bhash : String → String) (pm : Bool) (u : UserDoc) :
    (hashHook bhash pm u).role = u.role := by
  unfold hashHook
  split <;> rfl

theorem termsHook_role (now : Nat) (tm : Bool) (u : UserDoc) :
    (termsHook now tm u).role = u.role := by
  rcases termsHook_cases now tm u with h | h <;> rw [h]

theorem saveDoc_role (bhash : String → String) (now : Nat) (pm tm : Bool) (u : UserDoc) :
    (saveDoc bhash now pm tm u).role = u.role := by
  unfold saveDoc
  rw [termsHook_role, hashHook_role]

theorem hashHook_termsAccepted (bhash : String → String) (pm : Bool) (u : UserDoc) :
    (hashHook bhash pm u).termsAccepted = u.termsAccepted := by
  unfold hashHook
  split <;> rfl

theorem termsHook_termsAccepted (now : Nat) (tm : Bool) (u : UserDoc) :
    (termsHook now tm u).termsAccepted = u.termsAccepted := by
  rcases termsHook_cases now tm u with h | h <;> rw [h]

theorem saveDoc_termsAccepted (bhash : String → String) (now : Nat) (pm tm : Bool) (u : UserDoc) :
    (saveDoc bhash now pm tm u).termsAccepted = u.termsAccepted := by
  unfold saveDoc
  rw [termsHook_termsAccepted, hashHook_termsAccepted]

theorem hashHook_suffixField (bhash : String → String) (pm : Bool) (u : UserDoc) :
    (hashHook bhash pm u).suffix = u.suffix := by
  unfold hashHook
  split <;> rfl

theorem termsHook_suffixField (now : Nat) (tm : Bool) (u : UserDoc) :
    (termsHook now tm u).suffix = u.suffix := by
  rcases termsHook_cases now tm u with h | h <;> rw [h]

theorem saveDoc_suffixField (bhash : String → String) (now : Nat) (pm tm : Bool) (u : UserDoc) :
    (saveDoc bhash now pm tm u).suffix = u.suffix := by
  unfold saveDoc
  rw [termsHook_suffixField, hashHook_suffixField]

theorem termsHook_password (now : Nat) (tm : Bool) (u : UserDoc) :
    (termsHook now tm u).password = u.password := by
  rcases termsHook_cases now tm u with h | h <;> rw [h]

theorem saveDoc_password_not_modified (bhash : String → String) (now : Nat) (tm : Bool)
    (u : UserDoc) : (saveDoc bhash now false tm u).password = u.password := by
  unfold saveDoc
  rw [termsHook_password, hashHook_false]

theorem saveDoc_password_modified (bhash : String → String) (now : Nat) (tm : Bool)
    (u : UserDoc) : (saveDoc bhash now true tm u).password = bhash u.password := by
  unfold saveDoc
  rw [termsHook_password]
  rfl

theorem saveDoc_termsAcceptedAt_keeps_set (bhash : String → String) (now : Nat)
    (pm tm : Bool) (u : UserDoc) (t : Nat) (h : u.termsAcceptedAt = some t) :
    (saveDoc bhash now pm tm u).termsAcceptedAt = some t := by
  unfold saveDoc
  apply termsHook_keeps_set
  unfold hashHook
  split <;> exact h

theorem find?_append_none {α : Type} (p : α → Bool) (l1 l2 : List α)
    (h : l1.find? p = none) : (l1 ++ l2).find? p = l2.find? p := by
  induction l1 with
  | nil => rfl
  | cons x xs ih =>
    by_cases hx : p x
    · rw [List.find?_cons_of_pos _ hx] at h
      cases h
    · rw [List.find?_cons_of_neg _ hx] at h
      rw [List.cons_append, List.find?_cons_of_neg _ hx]
      exact ih h

/-- C1.  For every stored identity, `VerifyChallenge(identifier, otpCode)`
succeeds iff the stored OTP code is present and exactly equals the supplied
code and the current time is not past `otpExpiresAt`; on success it sets the
verified flag of the classified channel and clears both `otpCode` and
`otpExpiresAt`, so re-invoking with the consumed code fails with the 400
invalid-code response.  Codes issued by `generateOTP` are six digits, so the
stored code is never the empty string; the hypothesis `hne` records that. -/
theorem c1_verify_challenge
    (bhash : String → String) (db : DB) (now : Nat) (emailOrPhone otpCode : String)
    (u : UserDoc) (hfind : db.find? (matchesIdentifier emailOrPhone) = some u)
    (hne : u.otpCode ≠ some "") :
    ((verifyOTP bhash db now emailOrPhone otpCode).1 = .verified u.uid ↔
      (u.otpCode = some otpCode ∧ ∃ e, u.otpExpires = some e ∧ now ≤ e)) ∧
    ((verifyOTP bhash db now emailOrPhone otpCode).1 = .verified u.uid →
      ∃ u2, (verifyOTP bhash db now emailOrPhone otpCode).2.find?
          (matchesIdentifier emailOrPhone) = some u2 ∧
        u2.otpCode = none ∧ u2.otpExpires = none ∧
        (if isEmail emailOrPhone then u2.isEmailVerified = true
         else u2.isPhoneVerified = true) ∧
        u2.isVerified = u.isVerified ∧
        ∀ now2 : Nat,
          (verifyOTP bhash (verifyOTP bhash db now emailOrPhone otpCode).2
              now2 emailOrPhone otpCode).1 = .invalidCode) := by
  have hsome : (db.find? (matchesIdentifier emailOrPhone)).isSome := by
    rw [hfind]; rfl
  cases hcode : u.otpCode with
  | none =>
    have heq : verifyOTP bhash db now emailOrPhone otpCode = (.invalidCode, db) := by
      simp [verifyOTP, hfind, hcode]
    rw [heq]
    constructor
    · constructor
      · intro h
        simp at h
      · rintro ⟨h, -⟩
        exact Option.noConfusion h
    · intro h
      simp at h
  | some c =>
    have hcne : c ≠ "" := fun h => hne (by rw [hcode, h])
    by_cases hceq : c = otpCode
    · subst hceq
      cases hexp : u.otpExpires with
      | none =>
        have heq : verifyOTP bhash db now emailOrPhone c = (.expired, db) := by
          simp [verifyOTP, hfind, hcode, hexp, hcne]
        rw [heq]
        constructor
        · constructor
          · intro h
            simp at h
          · rintro ⟨-, e, he, -⟩
            exact Option.noConfusion he
        · intro h
          simp at h
      | some e =>
        by_cases hlt : e < now
        · have heq : verifyOTP bhash db now emailOrPhone c = (.expired, db) := by
            simp [verifyOTP, hfind, hcode, hexp, hcne, hlt]
          rw [heq]
          constructor
          · constructor
            · intro h
              simp at h
            · rintro ⟨-, e2, he2, hle⟩
              cases he2
              omega
          · intro h
            simp at h
        · have heq : verifyOTP bhash db now emailOrPhone c =
              (.verified u.uid, updateFirst (matchesIdentifier emailOrPhone)
                { u with
                  isEmailVerified := if isEmail emailOrPhone then true else u.isEmailVerified
                  isPhoneVerified := if isEmail emailOrPhone then u.isPhoneVerified else true
                  otpCode := none
                  otpExpires := none } db) := by
            simp [verifyOTP, hfind, hcode, hexp, hcne, hlt, saveDoc_not_modified]
          rw [heq]
          have hmatch1 : matchesIdentifier emailOrPhone
              { u with
                isEmailVerified := if isEmail emailOrPhone then true else u.isEmailVerified
                isPhoneVerified := if isEmail emailOrPhone then u.isPhoneVerified else true
                otpCode := none
                otpExpires := none } = matchesIdentifier emailOrPhone u :=
            matchesIdentifier_congr _ _ _ rfl rfl
          have hpu : matchesIdentifier emailOrPhone u = true :=
            List.find?_some hfind
          have hfind2 : (updateFirst (matchesIdentifier emailOrPhone)
              { u with
                isEmailVerified := if isEmail emailOrPhone then true else u.isEmailVerified
                isPhoneVerified := if isEmail emailOrPhone then u.isPhoneVerified else true
                otpCode := none
                otpExpires := none } db).find? (matchesIdentifier emailOrPhone) =
              some { u with
                isEmailVerified := if isEmail emailOrPhone then true else u.isEmailVerified
                isPhoneVerified := if isEmail emailOrPhone then u.isPhoneVerified else true
                otpCode := none
                otpExpires := none } :=
            find?_updateFirst _ _ _ hsome (by rw [hmatch1]; exact hpu)
          constructor
          · constructor
            · intro _
              exact ⟨rfl, e, rfl, by omega⟩
            · intro _
              rfl
          · intro _
            refine ⟨_, hfind2, rfl, rfl, ?_, rfl, ?_⟩
            · split
              · next hem => simp [hem]
              · next hem => simp [hem]
            · intro now2
              simp only [verifyOTP, hfind2]
              simp
    · have heq : verifyOTP bhash db now emailOrPhone otpCode = (.invalidCode, db) := by
        simp [verifyOTP, hfind, hcode, hceq]
      rw [heq]
      constructor
      · constructor
        · intro h
          simp at h
        · rintro ⟨h, -⟩
          exact absurd (Option.some.injEq _ _ ▸ h) hceq
      · intro h
        simp at h

theorem registerUser_created (bhash : String → String) (db : DB) (now r : Nat)
    (inp : RegisterInput) (hpw : inp.password = inp.confirmPassword)
    (hfind : db.find? (matchesIdentifier inp.emailOrPhone) = none) :
    registerUser bhash db now r inp =
      (.created db.length (if isEmail inp.emailOrPhone then "email" else "phone"),
        db ++ [saveDoc bhash now true true
          { uid := db.length
            email := if isEmail inp.emailOrPhone then some (normEmail inp.emailOrPhone) else none
            phoneNumber := if isEmail inp.emailOrPhone then none
              else some (normPhone inp.emailOrPhone)
            password := inp.password
            referralCode := inp.referralCode
            termsAccepted := false
            otpCode := some (genOTPCode r)
            otpExpires := some (now + otpWindowMs) }]) := by
  simp [registerUser, hpw, hfind, saveDoc_uid]

/-- C2.  A `StartRegistration` that finds an existing identity with the same
classified identifier aborts with the conflict error and persists nothing;
consequently a second `StartRegistration` with the same identifier right
after a successful first one yields exactly one success and one conflict,
and leaves the store exactly as the first one left it. -/
theorem c2_register_conflict (bhash : String → String) (db : DB)
    (now1 now2 r1 r2 : Nat) (inp : RegisterInput) :
    (∀ u, inp.password = inp.confirmPassword →
      db.find? (matchesIdentifier inp.emailOrPhone) = some u →
      registerUser bhash db now1 r1 inp =
        (.conflict (if isEmail inp.emailOrPhone then "email" else "phone number"), db)) ∧
    (∀ uid cm, (registerUser bhash db now1 r1 inp).1 = .created uid cm →
      registerUser bhash (registerUser bhash db now1 r1 inp).2 now2 r2 inp =
        (.conflict (if isEmail inp.emailOrPhone then "email" else "phone number"),
          (registerUser bhash db now1 r1 inp).2)) := by
  constructor
  · intro u hpw hfind
    simp [registerUser, hpw, hfind]
  · intro uid cm hcr
    by_cases hpw : inp.password = inp.confirmPassword
    · cases hfind : db.find? (matchesIdentifier inp.emailOrPhone) with
      | some u =>
        have heq : (registerUser bhash db now1 r1 inp).1 =
            .conflict (if isEmail inp.emailOrPhone then "email" else "phone number") := by
          simp [registerUser, hpw, hfind]
        rw [heq] at hcr
        cases hcr
      | none =>
        rw [registerUser_created bhash db now1 r1 inp hpw hfind] at hcr ⊢
        have hm : matchesIdentifier inp.emailOrPhone (saveDoc bhash now1 true true
            { uid := db.length
              email := if isEmail inp.emailOrPhone then some (normEmail inp.emailOrPhone)
                else none
              phoneNumber := if isEmail inp.emailOrPhone then none
                else some (normPhone inp.emailOrPhone)
              password := inp.password
              referralCode := inp.referralCode
              termsAccepted := false
              otpCode := some (genOTPCode r1)
              otpExpires := some (now1 + otpWindowMs) }) = true := by
          rw [matchesIdentifier_congr _ _ _ (saveDoc_email _ _ _ _ _)
            (saveDoc_phoneNumber _ _ _ _ _)]
          unfold matchesIdentifier
          split
          · next hE => simp [hE]
          · next hE => simp [hE]
        have hfind2 : ((db ++ [saveDoc bhash now1 true true
            { uid := db.length
              email := if isEmail inp.emailOrPhone then some (normEmail inp.emailOrPhone)
                else none
              phoneNumber := if isEmail inp.emailOrPhone then none
                else some (normPhone inp.emailOrPhone)
              password := inp.password
              referralCode := inp.referralCode
              termsAccepted := false
              otpCode := some (genOTPCode r1)
              otpExpires := some (now1 + otpWindowMs) }]).find?
              (matchesIdentifier inp.emailOrPhone)).isSome := by
          rw [find?_append_none _ _ _ hfind, List.find?_cons_of_pos _ hm]
          rfl
        cases hfind3 : (db ++ [saveDoc bhash now1 true true
            { uid := db.length
              email := if isEmail inp.emailOrPhone then some (normEmail inp.emailOrPhone)
                else none
              phoneNumber := if isEmail inp.emailOrPhone then none
                else some (normPhone inp.emailOrPhone)
              password := inp.password
              referralCode := inp.referralCode
              termsAccepted := false
              otpCode := some (genOTPCode r1)
              otpExpires := some (now1 + otpWindowMs) }]).find?
            (matchesIdentifier inp.emailOrPhone) with
        | none =>
          rw [hfind3] at hfind2
          cases hfind2
        | some w =>
          have hne2 : (!(inp.password == inp.confirmPassword)) = false := by
            rw [hpw]
            simp
          simp [registerUser, hne2, hfind3]
    · have heq : (registerUser bhash db now1 r1 inp).1 = .mismatch := by
        simp [registerUser, hpw]
      rw [heq] at hcr
      cases hcr

/-- The valid registration input used to instantiate C2. -/
def c2Inp : RegisterInput :=
  { emailOrPhone := "a@b.co", password := "Abc123", confirmPassword := "Abc123" }

/-- Witness for C2: registering twice with the same identifier from an empty
store gives one 201 and then one conflict, leaving the store unchanged. -/
theorem c2_register_conflict_witness :
    registerUser (fun s => s) (registerUser (fun s => s) [] 0 5 c2Inp).2 1 6 c2Inp =
      (.conflict (if isEmail c2Inp.emailOrPhone then "email" else "phone number"),
        (registerUser (fun s => s) [] 0 5 c2Inp).2) :=
  (c2_register_conflict (fun s => s) [] 0 1 5 6 c2Inp).2 0 "email" (by decide)

/-- C3.  `Login` answers the identical result — message "Invalid credentials"
with status 401 — both when no identity matches the identifier and when the
secret does not verify against the stored hash, and the distinct
not-fully-verified response is returned only for identities whose
`isVerified` flag is still false. -/
theorem c3_login_enumeration (bcompare : String → String → Bool) (db : DB)
    (emailOrPhone pw : String) :
    (db.find? (matchesIdentifier emailOrPhone) = none →
      loginUser bcompare db emailOrPhone pw = .invalidCredentials) ∧
    (∀ u, db.find? (matchesIdentifier emailOrPhone) = some u → u.isVerified = true →
      bcompare pw u.password = false →
      loginUser bcompare db emailOrPhone pw = .invalidCredentials) ∧
    (LoginResult.statusCode .invalidCredentials = 401 ∧
      LoginResult.responseMessage .invalidCredentials = "Invalid credentials") ∧
    (loginUser bcompare db emailOrPhone pw = .notConfirmed →
      ∃ u, db.find? (matchesIdentifier emailOrPhone) = some u ∧ u.isVerified = false) := by
  refine ⟨?_, ?_, ⟨rfl, rfl⟩, ?_⟩
  · intro h
    simp [loginUser, h]
  · intro u hf hv hc
    simp [loginUser, hf, hv, hc]
  · intro h
    cases hf : db.find? (matchesIdentifier emailOrPhone) with
    | none =>
      rw [show loginUser bcompare db emailOrPhone pw = .invalidCredentials by
        simp [loginUser, hf]] at h
      cases h
    | some u =>
      refine ⟨u, rfl, ?_⟩
      by_cases hv : u.isVerified
      · by_cases hc : bcompare pw u.password
        · rw [show loginUser bcompare db emailOrPhone pw =
              .loggedIn (sanitizeUser (toObject u)) u.uid by
            simp [loginUser, hf, hv, hc]] at h
          cases h
        · rw [show loginUser bcompare db emailOrPhone pw = .invalidCredentials by
            simp [loginUser, hf, hv, hc]] at h
          cases h
      · simpa using hv

/-- Witness for C3: on the empty store every login answers the generic
invalid-credentials result. -/
theorem c3_login_enumeration_witness :
    loginUser (fun _ _ => false) [] "a@b.co" "pw" = .invalidCredentials :=
  (c3_login_enumeration (fun _ _ => false) [] "a@b.co" "pw").1 rfl

theorem applyField_role (u : UserDoc) (k : String) (v : JVal) (h : k ≠ "role") :
    (applyField u k v).role = u.role := by
  unfold applyField
  by_cases hb1 : (k == "email") = true
  · rw [if_pos hb1]; cases v <;> rfl
  rw [if_neg hb1]
  by_cases hb2 : (k == "phoneNumber") = true
  · rw [if_pos hb2]; cases v <;> rfl
  rw [if_neg hb2]
  by_cases hb3 : (k == "password") = true
  · rw [if_pos hb3]; cases v <;> rfl
  rw [if_neg hb3]
  by_cases hb4 : (k == "firstName") = true
  · rw [if_pos hb4]; cases v <;> rfl
  rw [if_neg hb4]
  by_cases hb5 : (k == "lastName") = true
  · rw [if_pos hb5]; cases v <;> rfl
  rw [if_neg hb5]
  by_cases hb6 : (k == "middleInitial") = true
  · rw [if_pos hb6]; cases v <;> rfl
  rw [if_neg hb6]
  by_cases hb7 : (k == "suffix") = true
  · rw [if_pos hb7]; cases v <;> rfl
  rw [if_neg hb7]
  by_cases hb8 : (k == "birthday") = true
  · rw [if_pos hb8]; cases v <;> rfl
  rw [if_neg hb8]
  by_cases hb9 : (k == "gender") = true
  · rw [if_pos hb9]; cases v <;> rfl
  rw [if_neg hb9]
  by_cases hb10 : (k == "address") = true
  · rw [if_pos hb10]; cases v <;> rfl
  rw [if_neg hb10]
  by_cases hb11 : (k == "referralCode") = true
  · rw [if_pos hb11]; cases v <;> rfl
  rw [if_neg hb11]
  by_cases hb12 : (k == "isVerified") = true
  · rw [if_pos hb12]; cases v <;> rfl
  rw [if_neg hb12]
  by_cases hb13 : (k == "isPhoneVerified") = true
  · rw [if_pos hb13]; cases v <;> rfl
  rw [if_neg hb13]
  by_cases hb14 : (k == "isEmailVerified") = true
  · rw [if_pos hb14]; cases v <;> rfl
  rw [if_neg hb14]
  by_cases hb15 : (k == "otpCode") = true
  · rw [if_pos hb15]; cases v <;> rfl
  rw [if_neg hb15]
  by_cases hb16 : (k == "otpExpires") = true
  · rw [if_pos hb16]; cases v <;> rfl
  rw [if_neg hb16]
  by_cases hb17 : (k == "profilePicture") = true
  · rw [if_pos hb17]; cases v <;> rfl
  rw [if_neg hb17]
  by_cases hb18 : (k == "role") = true
  · exact absurd (beq_iff_eq.mp hb18) h
  rw [if_neg hb18]
  by_cases hb19 : (k == "termsAccepted") = true
  · rw [if_pos hb19]; cases v <;> rfl
  rw [if_neg hb19]
  by_cases hb20 : (k == "termsAcceptedAt") = true
  · rw [if_pos hb20]; cases v <;> rfl
  rw [if_neg hb20]

theorem applyField_password (u : UserDoc) (k : String) (v : JVal) (h : k ≠ "password") :
    (applyField u k v).password = u.password := by
  unfold applyField
  by_cases hb1 : (k == "email") = true
  · rw [if_pos hb1]; cases v <;> rfl
  rw [if_neg hb1]
  by_cases hb2 : (k == "phoneNumber") = true
  · rw [if_pos hb2]; cases v <;> rfl
  rw [if_neg hb2]
  by_cases hb3 : (k == "password") = true
  · exact absurd (beq_iff_eq.mp hb3) h
  rw [if_neg hb3]
  by_cases hb4 : (k == "firstName") = true
  · rw [if_pos hb4]; cases v <;> rfl
  rw [if_neg hb4]
  by_cases hb5 : (k == "lastName") = true
  · rw [if_pos hb5]; cases v <;> rfl
  rw [if_neg hb5]
  by_cases hb6 : (k == "middleInitial") = true
  · rw [if_pos hb6]; cases v <;> rfl
  rw [if_neg hb6]
  by_cases hb7 : (k == "suffix") = true
  · rw [if_pos hb7]; cases v <;> rfl
  rw [if_neg hb7]
  by_cases hb8 : (k == "birthday") = true
  · rw [if_pos hb8]; cases v <;> rfl
  rw [if_neg hb8]
  by_cases hb9 : (k == "gender") = true
  · rw [if_pos hb9]; cases v <;> rfl
  rw [if_neg hb9]
  by_cases hb10 : (k == "address") = true
  · rw [if_pos hb10]; cases v <;> rfl
  rw [if_neg hb10]
  by_cases hb11 : (k == "referralCode") = true
  · rw [if_pos hb11]; cases v <;> rfl
  rw [if_neg hb11]
  by_cases hb12 : (k == "isVerified") = true
  · rw [if_pos hb12]; cases v <;> rfl
  rw [if_neg hb12]
  by_cases hb13 : (k == "isPhoneVerified") = true
  · rw [if_pos hb13]; cases v <;> rfl
  rw [if_neg hb13]
  by_cases hb14 : (k == "isEmailVerified") = true
  · rw [if_pos hb14]; cases v <;> rfl
  rw [if_neg hb14]
  by_cases hb15 : (k == "otpCode") = true
  · rw [if_pos hb15]; cases v <;> rfl
  rw [if_neg hb15]
  by_cases hb16 : (k == "otpExpires") = true
  · rw [if_pos hb16]; cases v <;> rfl
  rw [if_neg hb16]
  by_cases hb17 : (k == "profilePicture") = true
  · rw [if_pos hb17]; cases v <;> rfl
  rw [if_neg hb17]
  by_cases hb18 : (k == "role") = true
  · rw [if_pos hb18]; cases v <;> rfl
  rw [if_neg hb18]
  by_cases hb19 : (k == "termsAccepted") = true
  · rw [if_pos hb19]; cases v <;> rfl
  rw [if_neg hb19]
  by_cases hb20 : (k == "termsAcceptedAt") = true
  · rw [if_pos hb20]; cases v <;> rfl
  rw [if_neg hb20]

theorem applyField_isVerified (u : UserDoc) (k : String) (v : JVal)
    (h : k ≠ "isVerified") : (applyField u k v).isVerified = u.isVerified := by
  unfold applyField
  by_cases hb1 : (k == "email") = true
  · rw [if_pos hb1]; cases v <;> rfl
  rw [if_neg hb1]
  by_cases hb2 : (k == "phoneNumber") = true
  · rw [if_pos hb2]; cases v <;> rfl
  rw [if_neg hb2]
  by_cases hb3 : (k == "password") = true
  · rw [if_pos hb3]; cases v <;> rfl
  rw [if_neg hb3]
  by_cases hb4 : (k == "firstName") = true
  · rw [if_pos hb4]; cases v <;> rfl
  rw [if_neg hb4]
  by_cases hb5 : (k == "lastName") = true
  · rw [if_pos hb5]; cases v <;> rfl
  rw [if_neg hb5]
  by_cases hb6 : (k == "middleInitial") = true
  · rw [if_pos hb6]; cases v <;> rfl
  rw [if_neg hb6]
  by_cases hb7 : (k == "suffix") = true
  · rw [if_pos hb7]; cases v <;> rfl
  rw [if_neg hb7]
  by_cases hb8 : (k == "birthday") = true
  · rw [if_pos hb8]; cases v <;> rfl
  rw [if_neg hb8]
  by_cases hb9 : (k == "gender") = true
  · rw [if_pos hb9]; cases v <;> rfl
  rw [if_neg hb9]
  by_cases hb10 : (k == "address") = true
  · rw [if_pos hb10]; cases v <;> rfl
  rw [if_neg hb10]
  by_cases hb11 : (k == "referralCode") = true
  · rw [if_pos hb11]; cases v <;> rfl
  rw [if_neg hb11]
  by_cases hb12 : (k == "isVerified") = true
  · exact absurd (beq_iff_eq.mp hb12) h
  rw [if_neg hb12]
  by_cases hb13 : (k == "isPhoneVerified") = true
  · rw [if_pos hb13]; cases v <;> rfl
  rw [if_neg hb13]
  by_cases hb14 : (k == "isEmailVerified") = true
  · rw [if_pos hb14]; cases v <;> rfl
  rw [if_neg hb14]
  by_cases hb15 : (k == "otpCode") = true
  · rw [if_pos hb15]; cases v <;> rfl
  rw [if_neg hb15]
  by_cases hb16 : (k == "otpExpires") = true
  · rw [if_pos hb16]; cases v <;> rfl
  rw [if_neg hb16]
  by_cases hb17 : (k == "profilePicture") = true
  · rw [if_pos hb17]; cases v <;> rfl
  rw [if_neg hb17]
  by_cases hb18 : (k == "role") = true
  · rw [if_pos hb18]; cases v <;> rfl
  rw [if_neg hb18]
  by_cases hb19 : (k == "termsAccepted") = true
  · rw [if_pos hb19]; cases v <;> rfl
  rw [if_neg hb19]
  by_cases hb20 : (k == "termsAcceptedAt") = true
  · rw [if_pos hb20]; cases v <;> rfl
  rw [if_neg hb20]

theorem applyField_uid (u : UserDoc) (k : String) (v : JVal) :
    (applyField u k v).uid = u.uid := by
  unfold applyField
  by_cases hb1 : (k == "email") = true
  · rw [if_pos hb1]; cases v <;> rfl
  rw [if_neg hb1]
  by_cases hb2 : (k == "phoneNumber") = true
  · rw [if_pos hb2]; cases v <;> rfl
  rw [if_neg hb2]
  by_cases hb3 : (k == "password") = true
  · rw [if_pos hb3]; cases v <;> rfl
  rw [if_neg hb3]
  by_cases hb4 : (k == "firstName") = true
  · rw [if_pos hb4]; cases v <;> rfl
  rw [if_neg hb4]
  by_cases hb5 : (k == "lastName") = true
  · rw [if_pos hb5]; cases v <;> rfl
  rw [if_neg hb5]
  by_cases hb6 : (k == "middleInitial") = true
  · rw [if_pos hb6]; cases v <;> rfl
  rw [if_neg hb6]
  by_cases hb7 : (k == "suffix") = true
  · rw [if_pos hb7]; cases v <;> rfl
  rw [if_neg hb7]
  by_cases hb8 : (k == "birthday") = true
  · rw [if_pos hb8]; cases v <;> rfl
  rw [if_neg hb8]
  by_cases hb9 : (k == "gender") = true
  · rw [if_pos hb9]; cases v <;> rfl
  rw [if_neg hb9]
  by_cases hb10 : (k == "address") = true
  · rw [if_pos hb10]; cases v <;> rfl
  rw [if_neg hb10]
  by_cases hb11 : (k == "referralCode") = true
  · rw [if_pos hb11]; cases v <;> rfl
  rw [if_neg hb11]
  by_cases hb12 : (k == "isVerified") = true
  · rw [if_pos hb12]; cases v <;> rfl
  rw [if_neg hb12]
  by_cases hb13 : (k == "isPhoneVerified") = true
  · rw [if_pos hb13]; cases v <;> rfl
  rw [if_neg hb13]
  by_cases hb14 : (k == "isEmailVerified") = true
  · rw [if_pos hb14]; cases v <;> rfl
  rw [if_neg hb14]
  by_cases hb15 : (k == "otpCode") = true
  · rw [if_pos hb15]; cases v <;> rfl
  rw [if_neg hb15]
  by_cases hb16 : (k == "otpExpires") = true
  · rw [if_pos hb16]; cases v <;> rfl
  rw [if_neg hb16]
  by_cases hb17 : (k == "profilePicture") = true
  · rw [if_pos hb17]; cases v <;> rfl
  rw [if_neg hb17]
  by_cases hb18 : (k == "role") = true
  · rw [if_pos hb18]; cases v <;> rfl
  rw [if_neg hb18]
  by_cases hb19 : (k == "termsAccepted") = true
  · rw [if_pos hb19]; cases v <;> rfl
  rw [if_neg hb19]
  by_cases hb20 : (k == "termsAcceptedAt") = true
  · rw [if_pos hb20]; cases v <;> rfl
  rw [if_neg hb20]

theorem applyFields_role (body : List (String × JVal)) (u : UserDoc)
    (h : ∀ kv ∈ body, kv.1 ≠ "role") : (applyFields u body).role = u.role := by
  induction body generalizing u with
  | nil => rfl
  | cons kv rest ih =>
    rw [applyFields, ih _ (fun x hx => h x (List.mem_cons_of_mem _ hx)),
      applyField_role _ _ _ (h kv (List.mem_cons_self _ _))]

theorem applyFields_password (body : List (String × JVal)) (u : UserDoc)
    (h : ∀ kv ∈ body, kv.1 ≠ "password") : (applyFields u body).password = u.password := by
  induction body generalizing u with
  | nil => rfl
  | cons kv rest ih =>
    rw [applyFields, ih _ (fun x hx => h x (List.mem_cons_of_mem _ hx)),
      applyField_password _ _ _ (h kv (List.mem_cons_self _ _))]

theorem applyFields_isVerified (body : List (String × JVal)) (u : UserDoc)
    (h : ∀ kv ∈ body, kv.1 ≠ "isVerified") :
    (applyFields u body).isVerified = u.isVerified := by
  induction body generalizing u with
  | nil => rfl
  | cons kv rest ih =>
    rw [applyFields, ih _ (fun x hx => h x (List.mem_cons_of_mem _ hx)),
      applyField_isVerified _ _ _ (h kv (List.mem_cons_self _ _))]

theorem applyFields_uid (body : List (String × JVal)) (u : UserDoc) :
    (applyFields u body).uid = u.uid := by
  induction body generalizing u with
  | nil => rfl
  | cons kv rest ih =>
    rw [applyFields, ih, applyField_uid]

/-- The identity used to refute and then re-prove C4: authenticated, its
email channel verified, but not Active (`isVerified = false`). -/
def c4User : UserDoc :=
  { uid := 0, email := some "a@b.co", password := "pw", isEmailVerified := true,
    isVerified := false }

/-- An update body touching a field outside the profile field set. -/
def c4Body : List (String × JVal) := [("isEmailVerified", JVal.jbool false)]

/-- Counterexample to C4 as stated: `updateUserProfile` succeeds for an
identity that is not Active (`isVerified = false`), and the persisted update
flips `isEmailVerified` — a field outside the restricted profile field set —
so the operation is neither limited to Active identities nor to the profile
fields. -/
theorem c4_profile_update_cex :
    c4User.isVerified = false ∧
    (updateUserProfile [c4User] (some 0) c4Body).1 =
      .updated { c4User with isEmailVerified := false } ∧
    c4User.isEmailVerified = true := by
  decide

/-- C4 (amended).  `PUT /profile` strips exactly `password`, `_id`, `role`
and `isVerified` from the body and persists every remaining schema field
(not only profile fields); it performs no Active-state check beyond bearer
authentication, so it succeeds for every authenticated stored identity; in
particular `role`, `password`, `isVerified` and the id are always preserved. -/
theorem c4_profile_update (db : DB) (uid : Nat) (body : List (String × JVal))
    (u : UserDoc) (hfind : db.find? (fun x => x.uid == uid) = some u) :
    (updateUserProfile db (some uid) body).1 =
      .updated (applyFields u (body.filter (fun kv => !(strippedFields.contains kv.1)))) ∧
    (∀ u1, (updateUserProfile db (some uid) body).1 = .updated u1 →
      u1.role = u.role ∧ u1.password = u.password ∧ u1.isVerified = u.isVerified ∧
      u1.uid = u.uid) := by
  have hbody : ∀ kv ∈ body.filter (fun kv => !(strippedFields.contains kv.1)),
      kv.1 ≠ "role" ∧ kv.1 ≠ "password" ∧ kv.1 ≠ "isVerified" := by
    intro kv hkv
    have hmem := List.of_mem_filter hkv
    refine ⟨?_, ?_, ?_⟩ <;> intro heq <;> rw [heq] at hmem <;>
      simp [strippedFields] at hmem
  have h1 : (updateUserProfile db (some uid) body).1 =
      .updated (applyFields u (body.filter (fun kv => !(strippedFields.contains kv.1)))) := by
    simp [updateUserProfile, hfind]
  refine ⟨h1, ?_⟩
  intro u1 hu1
  rw [h1] at hu1
  cases hu1
  exact ⟨applyFields_role _ _ (fun kv hkv => (hbody kv hkv).1),
    applyFields_password _ _ (fun kv hkv => (hbody kv hkv).2.1),
    applyFields_isVerified _ _ (fun kv hkv => (hbody kv hkv).2.2),
    applyFields_uid _ _⟩

/-- Witness for C4 (amended): applied to the concrete non-Active identity,
the update goes through and equals the body with the four fields stripped. -/
theorem c4_profile_update_witness :
    (updateUserProfile [c4User] (some 0) c4Body).1 =
      .updated (applyFields c4User
        (c4Body.filter (fun kv => !(strippedFields.contains kv.1)))) :=
  (c4_profile_update [c4User] 0 c4Body c4User (by decide)).1

theorem storeGet_storeSet_self (k : String) (e : RLEntry) :
    ∀ s : RLStore, storeGet (storeSet s k e) k = some e := by
  intro s
  induction s with
  | nil => simp [storeSet, storeGet]
  | cons x xs ih =>
    by_cases hx : (x.1 == k) = true
    · have h1 : List.find? (fun kv => kv.1 == k) (x :: xs) = some x :=
        List.find?_cons_of_pos _ hx
      unfold storeSet
      rw [h1]
      simp only [Option.isSome_some, if_true]
      unfold storeGet
      rw [List.map_cons, if_pos hx, List.find?_cons_of_pos _ (by simp)]
      rfl
    · have h1 : List.find? (fun kv => kv.1 == k) (x :: xs) =
          List.find? (fun kv => kv.1 == k) xs := List.find?_cons_of_neg _ hx
      unfold storeSet at ih ⊢
      rw [h1]
      by_cases ht : (List.find? (fun kv => kv.1 == k) xs).isSome = true
      · rw [if_pos ht] at ih ⊢
        rw [List.map_cons, if_neg hx]
        unfold storeGet at ih ⊢
        have h2 : List.find? (fun kv => kv.1 == k)
            (x :: List.map (fun kv => if (kv.1 == k) = true then (k, e) else kv) xs) =
            List.find? (fun kv => kv.1 == k)
              (List.map (fun kv => if (kv.1 == k) = true then (k, e) else kv) xs) :=
          List.find?_cons_of_neg _ hx
        rw [h2]
        exact ih
      · rw [if_neg ht] at ih ⊢
        rw [List.cons_append]
        unfold storeGet at ih ⊢
        have h2 : List.find? (fun kv => kv.1 == k) (x :: (xs ++ [(k, e)])) =
            List.find? (fun kv => kv.1 == k) (xs ++ [(k, e)]) :=
          List.find?_cons_of_neg _ hx
        rw [h2]
        exact ih

theorem rlRun_within (opts : RLOptions) (key : String) :
    ∀ (ts : List Nat) (s : RLStore) (n R : Nat),
      storeGet s key = some ⟨n, R⟩ →
      (∀ t ∈ ts, t ≤ R) →
      (∀ i t, ts.get? i = some t →
        (rlRun opts key s ts).1.get? i =
          some (if n + i + 1 ≤ opts.maxReq then .allow
            else .reject ((R - t + 999) / 1000))) ∧
      storeGet (rlRun opts key s ts).2 key = some ⟨n + ts.length, R⟩ := by
  intro ts
  induction ts with
  | nil =>
    intro s n R h _
    constructor
    · intro i t hit
      cases i <;> cases hit
    · simpa using h
  | cons t ts ih =>
    intro s n R h hts
    have hR : ¬(R < t) := by
      have := hts t (List.mem_cons_self _ _)
      omega
    have h2 : (rlStep opts s key t).2 = storeSet s key ⟨n + 1, R⟩ := by
      unfold rlStep
      simp only [h, if_neg hR]
    have h1a : (rlStep opts s key t).1 =
        (if opts.maxReq < n + 1 then RLDecision.reject ((R - t + 999) / 1000)
         else .allow) := by
      unfold rlStep
      simp only [h, if_neg hR]
    have hget : storeGet (rlStep opts s key t).2 key = some ⟨n + 1, R⟩ := by
      rw [h2]
      exact storeGet_storeSet_self _ _ _
    obtain ⟨ihdec, ihstore⟩ := ih (rlStep opts s key t).2 (n + 1) R hget
      (fun x hx => hts x (List.mem_cons_of_mem _ hx))
    have hrun : rlRun opts key s (t :: ts) =
        ((rlStep opts s key t).1 :: (rlRun opts key (rlStep opts s key t).2 ts).1,
          (rlRun opts key (rlStep opts s key t).2 ts).2) := rfl
    constructor
    · intro i tv hit
      cases i with
      | zero =>
        cases hit
        rw [hrun]
        simp only [List.get?_cons_zero, h1a]
        by_cases hm : opts.maxReq < n + 1
        · rw [if_pos hm, if_neg (by omega)]
        · rw [if_neg hm, if_pos (by omega)]
      | succ j =>
        rw [hrun]
        simp only [List.get?_cons_succ]
        have := ihdec j tv hit
        rw [show n + 1 + j + 1 = n + (j + 1) + 1 by omega] at this
        exact this
    · rw [hrun]
      simp only [List.length_cons]
      rw [show n + (ts.length + 1) = n + 1 + ts.length by omega]
      exact ihstore

/-- The rate-limit policy used to refute C5: window of 1000 ms, maximum 1. -/
def c5Opts : RLOptions := { windowMs := 1000, maxReq := 1 }

/-- Counterexample to C5 as stated: after a first call at time 0 the window
ends at 1000; a second call at exactly `now = windowResetAt = 1000` does not
reset (the code resets only when `resetTime < now`), so it is rejected in
the same window — but with `retryAfterSeconds = ceil((1000 - 1000)/1000) = 0`,
which is not strictly positive. -/
theorem c5_rate_limit_cex :
    storeGet (rlStep c5Opts [] "k" 0).2 "k" = some { count := 1, resetTime := 1000 } ∧
    (rlStep c5Opts (rlStep c5Opts [] "k" 0).2 "k" 1000).1 = .reject 0 := by
  decide

/-- C5 (amended).  Per key: a gated call with no entry or an elapsed window
resets the counter to 1 (and is allowed whenever `max ≥ 1`); a call inside
the window increments the counter and is rejected with
`retryAfterSeconds = ceil((windowResetAt - now)/1000)` exactly when the
count exceeds `max`, and that value is strictly positive whenever
`now < windowResetAt` (it is 0 in the boundary case `now = windowResetAt`);
starting from a fresh key, a run of calls inside one window allows exactly
the first `max` calls and rejects every further one with the ceil formula. -/
theorem c5_rate_limit (opts : RLOptions) (s : RLStore) (key : String) (now : Nat) :
    ((storeGet s key = none ∨ (∃ e, storeGet s key = some e ∧ e.resetTime < now)) →
      storeGet (rlStep opts s key now).2 key = some ⟨1, now + opts.windowMs⟩ ∧
      (1 ≤ opts.maxReq → (rlStep opts s key now).1 = .allow)) ∧
    (∀ e, storeGet s key = some e → ¬(e.resetTime < now) →
      storeGet (rlStep opts s key now).2 key = some ⟨e.count + 1, e.resetTime⟩ ∧
      (e.count + 1 ≤ opts.maxReq → (rlStep opts s key now).1 = .allow) ∧
      (opts.maxReq < e.count + 1 →
        (rlStep opts s key now).1 = .reject ((e.resetTime - now + 999) / 1000) ∧
        (now < e.resetTime → 0 < (e.resetTime - now + 999) / 1000))) ∧
    (∀ ts : List Nat, storeGet s key = none → (∀ t ∈ ts, t ≤ now + opts.windowMs) →
      (1 ≤ opts.maxReq → (rlRun opts key s (now :: ts)).1.get? 0 = some .allow) ∧
      (∀ i t, ts.get? i = some t →
        (rlRun opts key s (now :: ts)).1.get? (i + 1) =
          some (if i + 2 ≤ opts.maxReq then .allow
            else .reject ((now + opts.windowMs - t + 999) / 1000)))) := by
  refine ⟨?_, ?_, ?_⟩
  · intro h
    have hst : (rlStep opts s key now).2 = storeSet s key ⟨1, now + opts.windowMs⟩ ∧
        (rlStep opts s key now).1 =
          (if opts.maxReq < 1 then
            RLDecision.reject ((now + opts.windowMs - now + 999) / 1000)
           else .allow) := by
      rcases h with h | ⟨e, he, helapsed⟩
      · unfold rlStep
        rw [h]
        exact ⟨rfl, rfl⟩
      · unfold rlStep
        simp only [he, if_pos helapsed]
        exact ⟨by trivial, by trivial⟩
    refine ⟨by rw [hst.1]; exact storeGet_storeSet_self _ _ _, fun hmax => ?_⟩
    rw [hst.2, if_neg (by omega)]
  · intro e he hin
    have hst : (rlStep opts s key now).2 = storeSet s key ⟨e.count + 1, e.resetTime⟩ ∧
        (rlStep opts s key now).1 =
          (if opts.maxReq < e.count + 1 then
            RLDecision.reject ((e.resetTime - now + 999) / 1000)
           else .allow) := by
      unfold rlStep
      simp only [he, if_neg hin]
      exact ⟨by trivial, by trivial⟩
    refine ⟨by rw [hst.1]; exact storeGet_storeSet_self _ _ _, fun hle => ?_, fun hgt => ?_⟩
    · rw [hst.2, if_neg (by omega)]
    · refine ⟨by rw [hst.2, if_pos hgt], fun hnow => ?_⟩
      have : 1 ≤ e.resetTime - now := by omega
      omega
  · intro ts hfresh hts
    have hst : (rlStep opts s key now).2 = storeSet s key ⟨1, now + opts.windowMs⟩ ∧
        (rlStep opts s key now).1 =
          (if opts.maxReq < 1 then
            RLDecision.reject ((now + opts.windowMs - now + 999) / 1000)
           else .allow) := by
      unfold rlStep
      rw [hfresh]
      exact ⟨rfl, rfl⟩
    have hget : storeGet (rlStep opts s key now).2 key =
        some ⟨1, now + opts.windowMs⟩ := by
      rw [hst.1]
      exact storeGet_storeSet_self _ _ _
    obtain ⟨ihdec, -⟩ := rlRun_within opts key ts (rlStep opts s key now).2 1
      (now + opts.windowMs) hget hts
    have hrun : rlRun opts key s (now :: ts) =
        ((rlStep opts s key now).1 :: (rlRun opts key (rlStep opts s key now).2 ts).1,
          (rlRun opts key (rlStep opts s key now).2 ts).2) := rfl
    constructor
    · intro hmax
      rw [hrun]
      simp only [List.get?_cons_zero]
      rw [hst.2, if_neg (by omega)]
    · intro i t hit
      rw [hrun]
      simp only [List.get?_cons_succ]
      have := ihdec i t hit
      rw [show 1 + i + 1 = i + 2 by omega] at this
      exact this

/-- Witness for C5 (amended): with window 1000 ms and maximum 2, the calls at
times 0, 10, 20 under one key see the third call rejected with
`retryAfterSeconds = ceil((1000 - 20)/1000) = 1`. -/
theorem c5_rate_limit_witness :
    (rlRun ⟨1000, 2⟩ "k" [] [0, 10, 20]).1.get? 2 = some (.reject 1) := by
  have h := ((c5_rate_limit ⟨1000, 2⟩ [] "k" 0).2.2 [10, 20] rfl (by decide)).2 1 20 rfl
  simpa using h

theorem verifyOTP_db_of_found (bhash : String → String) (db : DB) (now : Nat)
    (emailOrPhone otpCode : String) (w : UserDoc)
    (hf : db.find? (matchesIdentifier emailOrPhone) = some w) :
    (verifyOTP bhash db now emailOrPhone otpCode).2 = db ∨
    (verifyOTP bhash db now emailOrPhone otpCode).2 =
      updateFirst (matchesIdentifier emailOrPhone)
        (saveDoc bhash now false false
          { w with
            isEmailVerified := if isEmail emailOrPhone then true else w.isEmailVerified
            isPhoneVerified := if isEmail emailOrPhone then w.isPhoneVerified else true
            otpCode := none
            otpExpires := none }) db := by
  by_cases h1 : (w.otpCode == none || w.otpCode == some "" ||
      !(w.otpCode == some otpCode)) = true
  · left
    simp only [verifyOTP, hf, h1, if_true]
  · by_cases h2 : (match w.otpExpires with
        | none => true
        | some e => decide (e < now)) = true
    · left
      simp only [verifyOTP, hf]
      rw [if_neg h1, if_pos h2]
    · right
      simp only [verifyOTP, hf]
      rw [if_neg h1, if_neg h2]

theorem resendOTP_db_of_found (bhash : String → String) (db : DB) (now r : Nat)
    (emailOrPhone : String) (w : UserDoc)
    (hf : db.find? (matchesIdentifier emailOrPhone) = some w) :
    (resendOTP bhash db now r emailOrPhone).2 =
      updateFirst (matchesIdentifier emailOrPhone)
        (saveDoc bhash now false false
          { w with
            otpCode := some (genOTPCode r)
            otpExpires := some (now + otpWindowMs) }) db := by
  simp only [resendOTP, hf]

theorem completeProfile_db_of_found (bhash : String → String) (db : DB) (now : Nat)
    (inp : PersonalInfo) (w : UserDoc)
    (hterms : inp.termsAccepted = true)
    (hf : db.find? (fun x => x.uid == inp.userId) = some w)
    (hver : (!w.isEmailVerified && !w.isPhoneVerified) = false) :
    (completeProfile bhash db now inp).2 =
      updateFirst (fun x => x.uid == inp.userId)
        (saveDoc bhash now false (!(inp.termsAccepted == w.termsAccepted))
          { w with
            firstName := some inp.firstName
            lastName := some inp.lastName
            middleInitial := inp.middleInitial
            suffix := inp.suffix
            birthday := some inp.birthday
            gender := some inp.gender
            address := some inp.address
            termsAccepted := inp.termsAccepted
            isVerified := true }) db := by
  simp only [completeProfile, hterms, Bool.not_true, Bool.false_eq_true, if_neg,
    not_false_eq_true, hf, hver]

theorem completeProfile_db_unchanged (bhash : String → String) (db : DB) (now : Nat)
    (inp : PersonalInfo) :
    (completeProfile bhash db now inp).2 = db ∨
    ∃ w, db.find? (fun x => x.uid == inp.userId) = some w ∧
      inp.termsAccepted = true ∧ (!w.isEmailVerified && !w.isPhoneVerified) = false ∧
      (completeProfile bhash db now inp).2 =
        updateFirst (fun x => x.uid == inp.userId)
          (saveDoc bhash now false (!(inp.termsAccepted == w.termsAccepted))
            { w with
              firstName := some inp.firstName
              lastName := some inp.lastName
              middleInitial := inp.middleInitial
              suffix := inp.suffix
              birthday := some inp.birthday
              gender := some inp.gender
              address := some inp.address
              termsAccepted := inp.termsAccepted
              isVerified := true }) db := by
  by_cases hterms : inp.termsAccepted = true
  · cases hf : db.find? (fun x => x.uid == inp.userId) with
    | none =>
      left
      simp only [completeProfile, hterms, Bool.not_true, Bool.false_eq_true, if_neg,
        not_false_eq_true, hf]
    | some w =>
      by_cases hver : (!w.isEmailVerified && !w.isPhoneVerified) = true
      · left
        simp only [completeProfile, hterms, Bool.not_true, Bool.false_eq_true, if_neg,
          not_false_eq_true, hf, hver, if_true]
      · right
        exact ⟨w, rfl, hterms, by simpa using hver,
          completeProfile_db_of_found bhash db now inp w hterms hf (by simpa using hver)⟩
  · left
    have hb : inp.termsAccepted = false := by
      cases h : inp.termsAccepted
      · rfl
      · exact absurd h hterms
    simp only [completeProfile, hb, Bool.not_false, if_true]

theorem applyOp_keeps_termsAcceptedAt (bhash : String → String) (db : DB) (op : UserOp)
    (i : Nat) (u : UserDoc) (t : Nat) (hget : db.get? i = some u)
    (hAt : u.termsAcceptedAt = some t) :
    ∃ u2, (applyOp bhash db op).get? i = some u2 ∧ u2.termsAcceptedAt = some t := by
  have step : ∀ (p : UserDoc → Bool) (v : UserDoc) (w : UserDoc),
      db.find? p = some w → (w.termsAcceptedAt = some t → v.termsAcceptedAt = some t) →
      ∃ u2, (updateFirst p v db).get? i = some u2 ∧ u2.termsAcceptedAt = some t := by
    intro p v w hw hv
    rcases get?_updateFirst p v db i with hsame | ⟨w2, hw1, hw2, hw3⟩
    · exact ⟨u, by rw [hsame]; exact hget, hAt⟩
    · have hww : w2 = w := by
        rw [hw] at hw2
        exact (Option.some.injEq _ _ ▸ hw2.symm)
      have huw : u = w2 := by
        rw [hget] at hw1
        exact Option.some.injEq _ _ ▸ hw1
      refine ⟨v, hw3, hv ?_⟩
      rw [← hww, ← huw]
      exact hAt
  cases op with
  | verify now emailOrPhone otpCode =>
    show ∃ u2, (verifyOTP bhash db now emailOrPhone otpCode).2.get? i = some u2 ∧
      u2.termsAcceptedAt = some t
    cases hf : db.find? (matchesIdentifier emailOrPhone) with
    | none =>
      have hdb : (verifyOTP bhash db now emailOrPhone otpCode).2 = db := by
        simp [verifyOTP, hf]
      rw [hdb]
      exact ⟨u, hget, hAt⟩
    | some w =>
      rcases verifyOTP_db_of_found bhash db now emailOrPhone otpCode w hf with hdb | hdb
      · rw [hdb]
        exact ⟨u, hget, hAt⟩
      · rw [hdb]
        refine step _ _ w hf ?_
        intro hw
        exact saveDoc_termsAcceptedAt_keeps_set _ _ _ _ _ _ hw
  | resend now r emailOrPhone =>
    show ∃ u2, (resendOTP bhash db now r emailOrPhone).2.get? i = some u2 ∧
      u2.termsAcceptedAt = some t
    cases hf : db.find? (matchesIdentifier emailOrPhone) with
    | none =>
      have hdb : (resendOTP bhash db now r emailOrPhone).2 = db := by
        simp [resendOTP, hf]
      rw [hdb]
      exact ⟨u, hget, hAt⟩
    | some w =>
      rw [resendOTP_db_of_found bhash db now r emailOrPhone w hf]
      refine step _ _ w hf ?_
      intro hw
      exact saveDoc_termsAcceptedAt_keeps_set _ _ _ _ _ _ hw
  | complete now inp =>
    show ∃ u2, (completeProfile bhash db now inp).2.get? i = some u2 ∧
      u2.termsAcceptedAt = some t
    rcases completeProfile_db_unchanged bhash db now inp with hdb | ⟨w, hf, -, -, hdb⟩
    · rw [hdb]
      exact ⟨u, hget, hAt⟩
    · rw [hdb]
      refine step _ _ w hf ?_
      intro hw
      exact saveDoc_termsAcceptedAt_keeps_set _ _ _ _ _ _ hw

theorem applyOps_keeps_termsAcceptedAt (bhash : String → String) (ops : List UserOp) :
    ∀ (db : DB) (i : Nat) (u : UserDoc) (t : Nat), db.get? i = some u →
      u.termsAcceptedAt = some t →
      ∃ u2, (applyOps bhash db ops).get? i = some u2 ∧ u2.termsAcceptedAt = some t := by
  induction ops with
  | nil => exact fun db i u t hget hAt => ⟨u, hget, hAt⟩
  | cons op ops ih =>
    intro db i u t hget hAt
    obtain ⟨u1, h1, h2⟩ := applyOp_keeps_termsAcceptedAt bhash db op i u t hget hAt
    exact ih (applyOp bhash db op) i u1 t h1 h2

/-- C6.  `CompleteProfile` is rejected with the 400 terms-required response
whenever `termsAccepted` is not true; `termsAcceptedAt` is assigned on the
first save in which `termsAccepted` transitions to true; and once set, no
later verify / resend / complete operation ever changes it. -/
theorem c6_terms_once (bhash : String → String) (db : DB) (now : Nat)
    (inp : PersonalInfo) :
    (inp.termsAccepted = false → completeProfile bhash db now inp = (.termsRequired, db)) ∧
    (∀ u, db.find? (fun x => x.uid == inp.userId) = some u →
      inp.termsAccepted = true →
      (u.isEmailVerified || u.isPhoneVerified) = true →
      u.termsAccepted = false → u.termsAcceptedAt = none →
      ∃ u2, (completeProfile bhash db now inp).2.find? (fun x => x.uid == inp.userId) =
          some u2 ∧ u2.termsAcceptedAt = some now) ∧
    (∀ ops : List UserOp, ∀ i u t, db.get? i = some u → u.termsAcceptedAt = some t →
      ∃ u2, (applyOps bhash db ops).get? i = some u2 ∧ u2.termsAcceptedAt = some t) := by
  refine ⟨?_, ?_, ?_⟩
  · intro hb
    simp [completeProfile, hb]
  · intro u hf ht hv hTA hAt
    have hver : (!u.isEmailVerified && !u.isPhoneVerified) = false := by
      cases he : u.isEmailVerified <;> cases hp : u.isPhoneVerified <;> simp_all
    have hdb := completeProfile_db_of_found bhash db now inp u ht hf hver
    have hmatch : ((saveDoc bhash now false (!(inp.termsAccepted == u.termsAccepted))
        { u with
          firstName := some inp.firstName
          lastName := some inp.lastName
          middleInitial := inp.middleInitial
          suffix := inp.suffix
          birthday := some inp.birthday
          gender := some inp.gender
          address := some inp.address
          termsAccepted := inp.termsAccepted
          isVerified := true }).uid == inp.userId) = true := by
      rw [saveDoc_uid]
      show (u.uid == inp.userId) = true
      have hp := List.find?_some hf
      exact hp
    have hsome : (db.find? (fun x => x.uid == inp.userId)).isSome := by
      rw [hf]
      rfl
    have hfind2 := find?_updateFirst _ _ db hsome hmatch
    rw [hdb]
    refine ⟨_, hfind2, ?_⟩
    simp [saveDoc, hashHook, termsHook, ht, hTA, hAt]
  · intro ops i u t hget hAt
    exact applyOps_keeps_termsAcceptedAt bhash ops db i u t hget hAt

/-- The stored identity used to instantiate C6: email verified, terms not
yet accepted, `termsAcceptedAt` unset. -/
def c6User : UserDoc :=
  { uid := 0, email := some "a@b.co", password := "pw", isEmailVerified := true }

/-- The profile-completion input used to instantiate C6. -/
def c6Inp : PersonalInfo :=
  { userId := 0, firstName := "Ana", lastName := "Cruz", birthday := 5,
    gender := "female", address := "Davao", termsAccepted := true }

/-- Witness for C6: completing the profile of the concrete identity stamps
`termsAcceptedAt` with the save time. -/
theorem c6_terms_once_witness :
    ∃ u2, (completeProfile (fun s => s) [c6User] 77 c6Inp).2.find?
        (fun x => x.uid == c6Inp.userId) = some u2 ∧ u2.termsAcceptedAt = some 77 :=
  (c6_terms_once (fun s => s) [c6User] 77 c6Inp).2.1 c6User (by decide) rfl
    (by decide) rfl rfl

/-- The stored identity used for C7, holding an unconsumed OTP challenge. -/
def c7User : UserDoc :=
  { uid := 0, email := some "a@b.co", password := "pw", otpCode := some "123456",
    otpExpires := some 999999999 }

/-- Counterexample to C7 as stated: `generateOTP` draws a fresh random
six-digit code, and nothing prevents the draw from coinciding with the
previously issued code.  Here the resend regenerates exactly "123456", so
the previously issued code "123456" still verifies after the resend — the
old code does not always fail. -/
theorem c7_resend_invalidates_cex :
    c7User.otpCode = some "123456" ∧ genOTPCode 23456 = "123456" ∧
    (verifyOTP (fun s => s) (resendOTP (fun s => s) [c7User] 0 23456 "a@b.co").2 1
      "a@b.co" "123456").1 = .verified 0 := by
  decide

/-- C7 (amended).  `ResendChallenge` overwrites the stored code and expiry
with the freshly generated pair, so after a resend exactly the latest stored
code can verify: any previously issued code that differs from the freshly
generated one fails `VerifyChallenge` with the invalid-code response (a code
equal to the fresh draw still verifies). -/
theorem c7_resend_invalidates (bhash : String → String) (db : DB) (now now2 r : Nat)
    (emailOrPhone : String) (u : UserDoc)
    (hf : db.find? (matchesIdentifier emailOrPhone) = some u) :
    (resendOTP bhash db now r emailOrPhone).1 = .sent ∧
    ∃ u2, (resendOTP bhash db now r emailOrPhone).2.find?
        (matchesIdentifier emailOrPhone) = some u2 ∧
      u2.otpCode = some (genOTPCode r) ∧ u2.otpExpires = some (now + otpWindowMs) ∧
      ∀ oldCode, oldCode ≠ genOTPCode r →
        (verifyOTP bhash (resendOTP bhash db now r emailOrPhone).2 now2 emailOrPhone
          oldCode).1 = .invalidCode := by
  have hdb := resendOTP_db_of_found bhash db now r emailOrPhone u hf
  rw [saveDoc_not_modified] at hdb
  have hsome : (db.find? (matchesIdentifier emailOrPhone)).isSome := by
    rw [hf]
    rfl
  have hmatch : matchesIdentifier emailOrPhone
      ({ u with
        otpCode := some (genOTPCode r)
        otpExpires := some (now + otpWindowMs) } : UserDoc) = true := by
    have h1 := List.find?_some hf
    exact h1
  have hfind2 : (resendOTP bhash db now r emailOrPhone).2.find?
      (matchesIdentifier emailOrPhone) =
      some { u with
        otpCode := some (genOTPCode r)
        otpExpires := some (now + otpWindowMs) } := by
    rw [hdb]
    exact find?_updateFirst _ _ db hsome hmatch
  refine ⟨by simp [resendOTP, hf], _, hfind2, rfl, rfl, ?_⟩
  intro oldCode hold
  have hne : genOTPCode r ≠ oldCode := Ne.symm hold
  simp [verifyOTP, hfind2, hne]

/-- Witness for C7 (amended): resending for the concrete stored identity
answers the 200 sent response. -/
theorem c7_resend_invalidates_witness :
    (resendOTP (fun s => s) [c7User] 0 23456 "a@b.co").1 = .sent :=
  (c7_resend_invalidates (fun s => s) [c7User] 0 1 23456 "a@b.co" c7User (by decide)).1

theorem lookup_deleteKey_self (k : String) :
    ∀ o : List (String × JVal), (deleteKey k o).lookup k = none := by
  intro o
  induction o with
  | nil => rfl
  | cons kv rest ih =>
    unfold deleteKey at ih ⊢
    cases hk : kv.1 == k with
    | true =>
      rw [List.filter_cons, if_neg (by simp [hk])]
      exact ih
    | false =>
      have hne : kv.1 ≠ k := by simpa using hk
      have hk2 : (k == kv.1) = false := by simpa using Ne.symm hne
      rw [List.filter_cons, if_pos (by simp [hk])]
      rw [List.lookup_cons]
      simp only [hk2]
      exact ih

theorem lookup_deleteKey_other (k k2 : String) :
    ∀ o : List (String × JVal), o.lookup k = none → (deleteKey k2 o).lookup k = none := by
  intro o
  induction o with
  | nil => intro _; rfl
  | cons kv rest ih =>
    intro h
    rw [List.lookup_cons] at h
    cases hk : k == kv.1 with
    | true =>
      simp only [hk] at h
      cases h
    | false =>
      simp only [hk] at h
      unfold deleteKey at ih ⊢
      rw [List.filter_cons]
      by_cases hkeep : (!(kv.1 == k2)) = true
      · rw [if_pos hkeep]
        rw [List.lookup_cons]
        simp only [hk]
        exact ih h
      · rw [if_neg hkeep]
        exact ih h

theorem sanitizeUser_lookups (o : List (String × JVal)) :
    (sanitizeUser o).lookup "password" = none ∧
    (sanitizeUser o).lookup "otpCode" = none ∧
    (sanitizeUser o).lookup "otpExpires" = none := by
  unfold sanitizeUser
  refine ⟨?_, ?_, ?_⟩
  · exact lookup_deleteKey_other _ _ _
      (lookup_deleteKey_other _ _ _ (lookup_deleteKey_self _ _))
  · exact lookup_deleteKey_other _ _ _ (lookup_deleteKey_self _ _)
  · exact lookup_deleteKey_self _ _

theorem completeProfile_res_of_found (bhash : String → String) (db : DB) (now : Nat)
    (inp : PersonalInfo) (w : UserDoc)
    (hterms : inp.termsAccepted = true)
    (hf : db.find? (fun x => x.uid == inp.userId) = some w)
    (hver : (!w.isEmailVerified && !w.isPhoneVerified) = false) :
    (completeProfile bhash db now inp).1 =
      .completed (sanitizeUser (toObject
        (saveDoc bhash now false (!(inp.termsAccepted == w.termsAccepted))
          { w with
            firstName := some inp.firstName
            lastName := some inp.lastName
            middleInitial := inp.middleInitial
            suffix := inp.suffix
            birthday := some inp.birthday
            gender := some inp.gender
            address := some inp.address
            termsAccepted := inp.termsAccepted
            isVerified := true }))) w.uid := by
  simp only [completeProfile, hterms, Bool.not_true, Bool.false_eq_true, if_neg,
    not_false_eq_true, hf, hver]

/-- C8.  Every successful `CompleteProfile` and `Login` response carries the
identity object with the `password`, `otpCode` and `otpExpires` properties
deleted: looking any of them up in the returned object yields nothing. -/
theorem c8_sanitized (bhash : String → String) (bcompare : String → String → Bool)
    (db : DB) (now : Nat) (inp : PersonalInfo) (emailOrPhone pw : String) :
    (∀ user token, (completeProfile bhash db now inp).1 = .completed user token →
      user.lookup "password" = none ∧ user.lookup "otpCode" = none ∧
      user.lookup "otpExpires" = none) ∧
    (∀ user token, loginUser bcompare db emailOrPhone pw = .loggedIn user token →
      user.lookup "password" = none ∧ user.lookup "otpCode" = none ∧
      user.lookup "otpExpires" = none) := by
  constructor
  · intro user token h
    by_cases hterms : inp.termsAccepted = true
    · cases hf : db.find? (fun x => x.uid == inp.userId) with
      | none => simp [completeProfile, hterms, hf] at h
      | some w =>
        by_cases hver : (!w.isEmailVerified && !w.isPhoneVerified) = true
        · simp [completeProfile, hterms, hf, hver] at h
        · rw [completeProfile_res_of_found bhash db now inp w hterms hf
            (by simpa using hver)] at h
          injection h with h1 h2
          rw [← h1]
          exact sanitizeUser_lookups _
    · have hb : inp.termsAccepted = false := by
        cases h2 : inp.termsAccepted
        · rfl
        · exact absurd h2 hterms
      simp [completeProfile, hb] at h
  · intro user token h
    cases hf : db.find? (matchesIdentifier emailOrPhone) with
    | none => simp [loginUser, hf] at h
    | some w =>
      by_cases hv : w.isVerified = true
      · by_cases hc : bcompare pw w.password = true
        · rw [show loginUser bcompare db emailOrPhone pw =
              .loggedIn (sanitizeUser (toObject w)) w.uid by
            simp [loginUser, hf, hv, hc]] at h
          injection h with h1 h2
          rw [← h1]
          exact sanitizeUser_lookups _
        · simp [loginUser, hf, hv, hc] at h
      · simp [loginUser, hf, hv] at h

/-- The stored identity used to instantiate C8. -/
def c8User : UserDoc :=
  { uid := 0, email := some "a@b.co", password := "pw", isEmailVerified := true }

/-- The profile-completion input used to instantiate C8. -/
def c8Inp : PersonalInfo :=
  { userId := 0, firstName := "Ana", lastName := "Cruz", birthday := 5,
    gender := "female", address := "Davao", termsAccepted := true }

/-- Witness for C8: the concrete successful profile completion returns a
user object in which the three sensitive keys are absent. -/
theorem c8_sanitized_witness :
    ∃ user token, (completeProfile (fun s => s) [c8User] 7 c8Inp).1 =
        .completed user token ∧
      user.lookup "password" = none ∧ user.lookup "otpCode" = none ∧
      user.lookup "otpExpires" = none := by
  have h := (c8_sanitized (fun s => s) (fun a b => a == b) [c8User] 7 c8Inp "z" "z").1
  cases hres : (completeProfile (fun s => s) [c8User] 7 c8Inp).1 with
  | termsRequired => exact absurd hres (by decide)
  | notFound => exact absurd hres (by decide)
  | notVerifiedYet => exact absurd hres (by decide)
  | completed user token => exact ⟨user, token, rfl, h user token hres⟩

theorem applyOp_map_keyFields (bhash : String → String) (db : DB) (op : UserOp) :
    (applyOp bhash db op).map keyFields = db.map keyFields := by
  cases op with
  | verify now emailOrPhone otpCode =>
    show ((verifyOTP bhash db now emailOrPhone otpCode).2).map keyFields = _
    cases hf : db.find? (matchesIdentifier emailOrPhone) with
    | none =>
      have hdb : (verifyOTP bhash db now emailOrPhone otpCode).2 = db := by
        simp [verifyOTP, hf]
      rw [hdb]
    | some w =>
      rcases verifyOTP_db_of_found bhash db now emailOrPhone otpCode w hf with hdb | hdb
      · rw [hdb]
      · rw [hdb, saveDoc_not_modified]
        exact map_updateFirst keyFields _ _ db w hf rfl
  | resend now r emailOrPhone =>
    show ((resendOTP bhash db now r emailOrPhone).2).map keyFields = _
    cases hf : db.find? (matchesIdentifier emailOrPhone) with
    | none =>
      have hdb : (resendOTP bhash db now r emailOrPhone).2 = db := by
        simp [resendOTP, hf]
      rw [hdb]
    | some w =>
      rw [resendOTP_db_of_found bhash db now r emailOrPhone w hf, saveDoc_not_modified]
      exact map_updateFirst keyFields _ _ db w hf rfl
  | complete now inp =>
    show ((completeProfile bhash db now inp).2).map keyFields = _
    rcases completeProfile_db_unchanged bhash db now inp with hdb | ⟨w, hf, -, -, hdb⟩
    · rw [hdb]
    · rw [hdb]
      refine map_updateFirst keyFields _ _ db w hf ?_
      unfold keyFields
      rw [saveDoc_email, saveDoc_phoneNumber, saveDoc_password_not_modified]

theorem applyOps_map_keyFields (bhash : String → String) (ops : List UserOp) :
    ∀ db : DB, (applyOps bhash db ops).map keyFields = db.map keyFields := by
  induction ops with
  | nil => intro db; rfl
  | cons op ops ih =>
    intro db
    show (applyOps bhash (applyOp bhash db op) ops).map keyFields = _
    rw [ih, applyOp_map_keyFields]

theorem find?_matches_of_map_keyFields (emailOrPhone : String) :
    ∀ db1 db2 : DB, db1.map keyFields = db2.map keyFields →
      (db1.find? (matchesIdentifier emailOrPhone)).map keyFields =
        (db2.find? (matchesIdentifier emailOrPhone)).map keyFields := by
  intro db1
  induction db1 with
  | nil =>
    intro db2 h
    cases db2 with
    | nil => rfl
    | cons y ys => simp at h
  | cons x xs ih =>
    intro db2 h
    cases db2 with
    | nil => simp at h
    | cons y ys =>
      simp only [List.map_cons, List.cons.injEq] at h
      obtain ⟨hxy, hrest⟩ := h
      have hm : matchesIdentifier emailOrPhone x = matchesIdentifier emailOrPhone y :=
        matchesIdentifier_congr emailOrPhone x y
          (congrArg (fun q => q.1) hxy) (congrArg (fun q => q.2.1) hxy)
      cases hmx : matchesIdentifier emailOrPhone x with
      | false =>
        rw [List.find?_cons_of_neg _ (by rw [hmx]; exact Bool.false_ne_true),
          List.find?_cons_of_neg _ (by rw [← hm, hmx]; exact Bool.false_ne_true)]
        exact ih ys hrest
      | true =>
        rw [List.find?_cons_of_pos _ hmx, List.find?_cons_of_pos _ (by rw [← hm]; exact hmx)]
        show some (keyFields x) = some (keyFields y)
        exact congrArg some hxy

/-- C9.  The stored credential hash is written only when the password path
itself is modified: `VerifyChallenge`, `ResendChallenge` and
`CompleteProfile` save with the password unmodified, so every identity's
`(email, phoneNumber, password)` triple is unchanged by any sequence of
those operations, and a login lookup after the sequence still finds a user
whose stored hash verifies the originally registered secret. -/
theorem c9_password_stable (bhash : String → String) (bcompare : String → String → Bool)
    (hc : ∀ s, bcompare s (bhash s) = true) (db : DB) (now r : Nat)
    (inp : RegisterInput) (uid : Nat) (cm : String) (ops : List UserOp) :
    (∀ db2 : DB, (applyOps bhash db2 ops).map keyFields = db2.map keyFields) ∧
    ((registerUser bhash db now r inp).1 = .created uid cm →
      ∃ u2, (applyOps bhash (registerUser bhash db now r inp).2 ops).find?
          (matchesIdentifier inp.emailOrPhone) = some u2 ∧
        u2.password = bhash inp.password ∧
        bcompare inp.password u2.password = true) := by
  refine ⟨applyOps_map_keyFields bhash ops, ?_⟩
  intro hcr
  by_cases hpw : inp.password = inp.confirmPassword
  · cases hfind : db.find? (matchesIdentifier inp.emailOrPhone) with
    | some u =>
      have heq : (registerUser bhash db now r inp).1 =
          .conflict (if isEmail inp.emailOrPhone then "email" else "phone number") := by
        simp [registerUser, hpw, hfind]
      rw [heq] at hcr
      cases hcr
    | none =>
      rw [registerUser_created bhash db now r inp hpw hfind] at hcr ⊢
      have hm : matchesIdentifier inp.emailOrPhone (saveDoc bhash now true true
          { uid := db.length
            email := if isEmail inp.emailOrPhone then some (normEmail inp.emailOrPhone)
              else none
            phoneNumber := if isEmail inp.emailOrPhone then none
              else some (normPhone inp.emailOrPhone)
            password := inp.password
            referralCode := inp.referralCode
            termsAccepted := false
            otpCode := some (genOTPCode r)
            otpExpires := some (now + otpWindowMs) }) = true := by
        rw [matchesIdentifier_congr _ _ _ (saveDoc_email _ _ _ _ _)
          (saveDoc_phoneNumber _ _ _ _ _)]
        unfold matchesIdentifier
        split
        · next hE => simp [hE]
        · next hE => simp [hE]
      have hfind2 : ((db ++ [saveDoc bhash now true true
          { uid := db.length
            email := if isEmail inp.emailOrPhone then some (normEmail inp.emailOrPhone)
              else none
            phoneNumber := if isEmail inp.emailOrPhone then none
              else some (normPhone inp.emailOrPhone)
            password := inp.password
            referralCode := inp.referralCode
            termsAccepted := false
            otpCode := some (genOTPCode r)
            otpExpires := some (now + otpWindowMs) }]).find?
          (matchesIdentifier inp.emailOrPhone)) = some (saveDoc bhash now true true
          { uid := db.length
            email := if isEmail inp.emailOrPhone then some (normEmail inp.emailOrPhone)
              else none
            phoneNumber := if isEmail inp.emailOrPhone then none
              else some (normPhone inp.emailOrPhone)
            password := inp.password
            referralCode := inp.referralCode
            termsAccepted := false
            otpCode := some (genOTPCode r)
            otpExpires := some (now + otpWindowMs) }) := by
        rw [find?_append_none _ _ _ hfind, List.find?_cons_of_pos _ hm]
      have hmap := find?_matches_of_map_keyFields inp.emailOrPhone _ _
        (applyOps_map_keyFields bhash ops (db ++ [saveDoc bhash now true true
          { uid := db.length
            email := if isEmail inp.emailOrPhone then some (normEmail inp.emailOrPhone)
              else none
            phoneNumber := if isEmail inp.emailOrPhone then none
              else some (normPhone inp.emailOrPhone)
            password := inp.password
            referralCode := inp.referralCode
            termsAccepted := false
            otpCode := some (genOTPCode r)
            otpExpires := some (now + otpWindowMs) }]))
      rw [hfind2] at hmap
      cases hfound : (applyOps bhash (db ++ [saveDoc bhash now true true
          { uid := db.length
            email := if isEmail inp.emailOrPhone then some (normEmail inp.emailOrPhone)
              else none
            phoneNumber := if isEmail inp.emailOrPhone then none
              else some (normPhone inp.emailOrPhone)
            password := inp.password
            referralCode := inp.referralCode
            termsAccepted := false
            otpCode := some (genOTPCode r)
            otpExpires := some (now + otpWindowMs) }]) ops).find?
          (matchesIdentifier inp.emailOrPhone) with
      | none =>
        rw [hfound] at hmap
        cases hmap
      | some u2 =>
        rw [hfound] at hmap
        have hkf : keyFields u2 = _ := Option.some.injEq _ _ ▸ hmap
        have hpw2 : u2.password = bhash inp.password := by
          have := congrArg (fun q => q.2.2) hkf
          simpa [keyFields, saveDoc_password_modified] using this
        exact ⟨u2, rfl, hpw2, by rw [hpw2]; exact hc inp.password⟩
  · have heq : (registerUser bhash db now r inp).1 = .mismatch := by
      simp [registerUser, hpw]
    rw [heq] at hcr
    cases hcr

/-- The registration input used to instantiate C9. -/
def c9Inp : RegisterInput :=
  { emailOrPhone := "a@b.co", password := "Abc123", confirmPassword := "Abc123" }

/-- Witness for C9: after registering and then resending an OTP, the stored
hash still verifies the original secret under a concrete hash/verify pair. -/
theorem c9_password_stable_witness :
    ∃ u2, (applyOps (fun s => s ++ "h")
        (registerUser (fun s => s ++ "h") [] 0 5 c9Inp).2
        [UserOp.resend 1 7 "a@b.co"]).find? (matchesIdentifier c9Inp.emailOrPhone) =
        some u2 ∧
      u2.password = (fun s => s ++ "h") c9Inp.password ∧
      (fun c h2 => h2 == c ++ "h") c9Inp.password u2.password = true :=
  (c9_password_stable (fun s => s ++ "h") (fun c h2 => h2 == c ++ "h")
    (fun s => by simp) [] 0 5 c9Inp 0 "email" [UserOp.resend 1 7 "a@b.co"]).2 (by decide)

/-- C10.  `CompleteProfile` has no already-completed guard: for every stored
identity with at least one verified channel and a request with
`termsAccepted = true`, the call succeeds — regardless of whether the
identity is already Active — overwriting every profile field with the newly
supplied values, setting `isVerified`, and issuing a session token. -/
theorem c10_complete_repeatable (bhash : String → String) (db : DB) (now : Nat)
    (inp : PersonalInfo) (u : UserDoc)
    (hf : db.find? (fun x => x.uid == inp.userId) = some u)
    (hterms : inp.termsAccepted = true)
    (hver : (u.isEmailVerified || u.isPhoneVerified) = true) :
    ∃ user token, (completeProfile bhash db now inp).1 = .completed user token ∧
    ∃ u2, (completeProfile bhash db now inp).2.find? (fun x => x.uid == inp.userId) =
        some u2 ∧
      u2.firstName = some inp.firstName ∧ u2.lastName = some inp.lastName ∧
      u2.middleInitial = inp.middleInitial ∧ u2.suffix = inp.suffix ∧
      u2.birthday = some inp.birthday ∧ u2.gender = some inp.gender ∧
      u2.address = some inp.address ∧ u2.isVerified = true := by
  have hver2 : (!u.isEmailVerified && !u.isPhoneVerified) = false := by
    cases he : u.isEmailVerified <;> cases hp : u.isPhoneVerified <;> simp_all
  have hres := completeProfile_res_of_found bhash db now inp u hterms hf hver2
  have hdb := completeProfile_db_of_found bhash db now inp u hterms hf hver2
  refine ⟨_, _, hres, ?_⟩
  have hmatch : ((saveDoc bhash now false (!(inp.termsAccepted == u.termsAccepted))
      { u with
        firstName := some inp.firstName
        lastName := some inp.lastName
        middleInitial := inp.middleInitial
        suffix := inp.suffix
        birthday := some inp.birthday
        gender := some inp.gender
        address := some inp.address
        termsAccepted := inp.termsAccepted
        isVerified := true }).uid == inp.userId) = true := by
    rw [saveDoc_uid]
    show (u.uid == inp.userId) = true
    have hp := List.find?_some hf
    exact hp
  have hsome : (db.find? (fun x => x.uid == inp.userId)).isSome := by
    rw [hf]
    rfl
  have hfind2 := find?_updateFirst _ _ db hsome hmatch
  rw [hdb]
  refine ⟨_, hfind2, ?_, ?_, ?_, ?_, ?_, ?_, ?_, ?_⟩
  · rw [saveDoc_firstName]
  · rw [saveDoc_lastName]
  · rw [saveDoc_middleInitial]
  · rw [saveDoc_suffixField]
  · rw [saveDoc_birthday]
  · rw [saveDoc_gender]
  · rw [saveDoc_address]
  · rw [saveDoc_isVerified]

/-- The already-Active stored identity used to instantiate C10. -/
def c10User : UserDoc :=
  { uid := 0, email := some "a@b.co", password := "pw", isEmailVerified := true,
    isVerified := true, firstName := some "Old", lastName := some "Name",
    termsAccepted := true, termsAcceptedAt := some 1 }

/-- The repeated profile-completion input used to instantiate C10. -/
def c10Inp : PersonalInfo :=
  { userId := 0, firstName := "New", lastName := "Name", birthday := 9,
    gender := "male", address := "Cebu", termsAccepted := true }

/-- Witness for C10: re-completing the profile of an already-Active identity
succeeds and overwrites the profile fields. -/
theorem c10_complete_repeatable_witness :
    ∃ user token, (completeProfile (fun s => s) [c10User] 9 c10Inp).1 =
        .completed user token ∧
    ∃ u2, (completeProfile (fun s => s) [c10User] 9 c10Inp).2.find?
        (fun x => x.uid == c10Inp.userId) = some u2 ∧
      u2.firstName = some c10Inp.firstName ∧ u2.lastName = some c10Inp.lastName ∧
      u2.middleInitial = c10Inp.middleInitial ∧ u2.suffix = c10Inp.suffix ∧
      u2.birthday = some c10Inp.birthday ∧ u2.gender = some c10Inp.gender ∧
      u2.address = some c10Inp.address ∧ u2.isVerified = true :=
  c10_complete_repeatable (fun s => s) [c10User] 9 c10Inp c10User (by decide) rfl
    (by decide)

/-- A stored identity with a live OTP challenge, used to instantiate C1. -/
def c1User : UserDoc :=
  { uid := 0, email := some "a@b.co", password := "hash", otpCode := some "123456",
    otpExpires := some 100 }

/-- Witness for C1: the hypotheses hold at a concrete store, and verifying
the correct code before the expiry succeeds. -/
theorem c1_verify_challenge_witness :
    (verifyOTP (fun s => s) [c1User] 50 "a@b.co" "123456").1 = .verified 0 :=
  (c1_verify_challenge (fun s => s) [c1User] 50 "a@b.co" "123456" c1User
      (by decide) (by decide)).1.mpr ⟨rfl, 100, rfl, by norm_num⟩

end Farely
